import Mathlib

/-!
# steamgrid: the per-game, per-art-style pipeline of `startApplication`

A shallow embedding of `src/steamgrid.go` (`startApplication`, `errorAndExit`) and of the
`Config` record of `src/main.go`.

`startApplication` is an imperative loop over users, games and art styles.  It is embedded as
explicit state passing over a record `State` holding the variables the Go function mutates:
the live configuration, the two counters, the five bucket maps and `errorMessages`.  The two
counters are Go `int`s that count iterations of the loop; they are natural numbers here.  The
record holds two more fields:

* `world`: the state of everything outside the function (file system, network, console input).
  The functions `LoadOverlays`, `GetSteamInstallation`, `GetUsers`, `GetGames`, `GetGameName`,
  `LoadExisting`, `RemoveExisting`, `DownloadImage`, `ApplyOverlay`, `BackupGame` are declared
  in files of the repository that are not part of `src/`; together with `os.MkdirAll` and
  `ioutil.WriteFile` they are taken as parameters (`Env`), each an arbitrary function of the
  world and of its Go arguments.  A Go function that receives `*Game` returns the record as it
  leaves it; `BackupGame` only reads the record.
* `exited`: set by `errorAndExit` (`os.Exit(0)`); no statement runs once it is set.

Every stretch of code returns, next to the state it leaves, the chronological list of the
collaborator calls and console lines it produced (`Step.events`, `Run.trace`).  A `*Game` held
in a bucket is embedded as the position of the game in the enumeration (`GameRef`).

Go iterates a map in an unspecified order; the order in which the four art styles are visited
for the game at position `g` of user `u` is the parameter `Env.styleOrder u g`, a permutation
of the four styles.  The end-of-run report (lines 225-286) only prints the accumulated state
and is not embedded: the result of the run is the state it would print.
-/

namespace SteamGrid

/-! ## Data model -/

/-- The configuration record `Config` of `src/main.go`. -/
structure Config where
  SteamPath : String
  SteamGridDBAPIKey : String
  SteamGridDBArtstyle : String
  SteamGridDBType : String
  IGDBAPIKey : String
  OnlyNonSteamGames : Bool
  SkipSteam : Bool
  SkipGoogle : Bool
deriving DecidableEq, Repr

/-- A Go `[]byte`: `none` is the `nil` slice. -/
abbrev Bytes := Option (List UInt8)

/-- A Go `error`: `none` is `nil`, `some m` an error whose `Error()` text is `m`. -/
abbrev GoError := Option String

/-- The fields of `Game` that `startApplication` reads or writes.  The type declaration is
not in `src/`; the field list is the one `steamgrid.go` uses (lines 119-135, 193-215). -/
structure Game where
  ID : String
  Name : String
  ImageSource : String
  ImageExt : String
  CleanImageBytes : Bytes
  OverlayImageBytes : Bytes
deriving DecidableEq, Repr

/-- The fields of `User` that `startApplication` reads (lines 102-103). -/
structure User where
  Name : String
  Dir : String
deriving DecidableEq, Repr

/-- The keys of the `artStyles` map (lines 33-36). -/
inductive ArtStyle where
  | Banner
  | Cover
  | Hero
  | Logo
deriving DecidableEq, Repr

namespace ArtStyle

/-- The map key of a style. -/
def name : ArtStyle → String
  | Banner => "Banner"
  | Cover => "Cover"
  | Hero => "Hero"
  | Logo => "Logo"

/-- The value of `artStyles[artStyle]`:
`[idExtension, nameExtension, steamExtension, dimXHQ, dimYHQ, dimXLQ, dimYLQ]`. -/
def extensions : ArtStyle → List String
  | Banner => ["", ".banner", "header.jpg", "920", "430", "460", "215"]
  | Cover => ["p", ".cover", "library_600x900_2x.jpg", "600", "900", "300", "450"]
  | Hero => ["_hero", ".hero", "library_hero.jpg", "3840", "1240", "1920", "620"]
  | Logo => ["_logo", ".logo", "logo.png", "1280", "720", "640", "360"]

/-- The four keys of the map. -/
def all : List ArtStyle := [Banner, Cover, Hero, Logo]

/-- The expression `artStyleExtensions[0]`. -/
def idExtension (a : ArtStyle) : String := a.extensions.headD ""

end ArtStyle

/-- The `artStyles` map as the list of its entries. -/
def artStyles : List (String × List String) :=
  ArtStyle.all.map fun a => (a.name, a.extensions)

/-- One traversal of the `artStyles` map by `range`: every key exactly once, in some order. -/
def StyleOrder : Type := { l : List ArtStyle // l.Perm ArtStyle.all }

/-- A `*Game`: the game at position `index` of the games of the user at position `user`. -/
structure GameRef where
  user : Nat
  index : Nat
deriving DecidableEq, Repr

/-- A `map[string][]*Game` whose keys are the four style names (lines 69-98). -/
abbrev Buckets := ArtStyle → List GameRef

/-- The map literal of lines 69-98: every style maps to the empty slice. -/
def Buckets.empty : Buckets := fun _ => []

/-- The statement `b[artStyle] = append(b[artStyle], game)`. -/
def Buckets.push (b : Buckets) (artStyle : ArtStyle) (game : GameRef) : Buckets :=
  fun a => if a = artStyle then b a ++ [game] else b a

/-- What the run does to the outside, in order. -/
inductive Event where
  | stdout (text : String)
  | stderr (text : String)
  | exit (code : Nat)
  | LoadOverlays (err : GoError)
  | GetSteamInstallation (err : GoError)
  | GetUsers (err : GoError)
  | MkdirAll (path : String) (err : GoError)
  | GetGames (user : Nat) (count : Nat)
  | GetGameName (id : String)
  | LoadExisting (game : GameRef) (artStyle : ArtStyle)
  | RemoveExisting (game : GameRef) (artStyle : ArtStyle) (err : GoError)
  | DownloadImage (game : GameRef) (artStyle : ArtStyle) (apiKey : String) (origin : String)
      (err : GoError)
  | ApplyOverlay (game : GameRef) (artStyle : ArtStyle) (err : GoError)
  | BackupGame (game : GameRef) (artStyle : ArtStyle) (err : GoError)
  | WriteFile (path : String) (data : Bytes) (err : GoError)
deriving DecidableEq, Repr

/-- The result of a collaborator: its Go result and the world it leaves. -/
structure Ret (W α : Type) where
  val : α
  world : W

/-- The result of a collaborator that receives a `*Game`: its Go result, the game record as
it leaves it, and the world it leaves. -/
structure GameRet (W α : Type) where
  val : α
  game : Game
  world : W

/-- The collaborators of `startApplication`, as functions of the world `W` and of their Go
arguments; `O` is the type of the overlay catalogue returned by `LoadOverlays`. -/
structure Env (W O : Type) where
  /-- The value of `filepath.Dir(os.Args[0])`. -/
  exeDir : String
  /-- The value of `len(overlays)`. -/
  lenOverlays : O → Nat
  LoadOverlays : W → String → List (String × List String) → Ret W (O × GoError)
  GetSteamInstallation : W → String → Ret W (String × GoError)
  GetUsers : W → String → Ret W (List User × GoError)
  MkdirAll : W → String → Ret W GoError
  GetGames : W → User → Bool → Ret W (List Game)
  GetGameName : W → String → Ret W String
  LoadExisting : W → String → String → Game → List String → GameRet W Unit
  RemoveExisting : W → String → String → List String → Ret W GoError
  /-- Arguments: `gridDir, game, artStyle, artStyleExtensions, SkipSteam, SteamGridDBAPIKey,
  steamGridFilter, IGDBAPIKey, SkipGoogle`; result `(from, err)`. -/
  DownloadImage : W → String → Game → String → List String → Bool → String → String → String →
    Bool → GameRet W (String × GoError)
  ApplyOverlay : W → Game → O → List String → GameRet W GoError
  /-- Modelled from the spec: `BackupGame` is declared outside `src/`.  By section 4.4 it
  preserves the clean image of the game under `originals`; it reads the record it is handed
  and does not assign to it, so its result is its error and the world it leaves. -/
  BackupGame : W → String → Game → List String → Ret W GoError
  WriteFile : W → String → Bytes → Ret W GoError
  /-- The order in which `range artStyles` yields the styles for game `g` of user `u`. -/
  styleOrder : Nat → Nat → StyleOrder

/-- The variables `startApplication` mutates, the world, and the exit flag. -/
structure State (W : Type) where
  world : W
  config : Config
  nOverlaysApplied : Nat
  nDownloaded : Nat
  notFounds : Buckets
  steamGridDB : Buckets
  IGDB : Buckets
  searchedGames : Buckets
  failedGames : Buckets
  errorMessages : List String
  exited : Bool

/-- The outcome of a stretch of code that works on one game: the state and the game record it
leaves, and the events it produced, in order. -/
structure Step (W : Type) where
  state : State W
  game : Game
  events : List Event

/-- The outcome of a stretch of code: the state it leaves and the events it produced. -/
structure Run (W : Type) where
  state : State W
  trace : List Event

/-! ## Library functions used by the source -/

/-- The function `filepath.Join` on elements that are already clean: the non-empty elements
separated by the path separator. -/
def filepathJoin (elems : List String) : String :=
  String.intercalate "/" (elems.filter fun e => e ≠ "")

/-- The value of a decimal digit. -/
def digitVal (c : Char) : Option Nat :=
  if '0' ≤ c ∧ c ≤ '9' then some (c.toNat - 48) else none

/-- The digit loop of `strconv.ParseUint(s, 10, 64)`: a syntax error on a character that is
not a decimal digit, a range error when the value leaves 64 bits. -/
def parseUintLoop : List Char → Nat → Option Nat
  | [], acc => some acc
  | c :: cs, acc =>
    match digitVal c with
    | none => none
    | some d => if acc * 10 + d < 2 ^ 64 then parseUintLoop cs (acc * 10 + d) else none

/-- The call `strconv.ParseUint(s, 10, 64)`: `none` when it returns an error. -/
def ParseUint (s : String) : Option Nat :=
  match s.toList with
  | [] => none
  | c :: cs => parseUintLoop (c :: cs) 0

/-- The call `strconv.FormatUint(n, 10)`. -/
def FormatUint (n : Nat) : String := Nat.repr n

/-- The `uint64` expression `id<<32|0x02000000` of line 214. -/
def legacyID (id : Nat) : Nat := ((id <<< 32) % 2 ^ 64) ||| 0x02000000


/-! ## `startApplication` -/

/-- The text compared with `err.Error()` on line 150. -/
def authErrorText : String := "SteamGridDB authorization token is missing or invalid"

/-- The function `errorAndExit` (lines 16-20): print the error, wait for a line, exit. -/
def errorAndExit {W : Type} (s : State W) (err : String) : Run W :=
  { state := { s with exited := true }
    trace := [Event.stdout (err ++ "\n"), Event.exit 0] }

/-- Lines 132-135: the four image fields are cleared. -/
def resetGame (game : Game) : Game :=
  { game with ImageSource := "", ImageExt := "", CleanImageBytes := none,
              OverlayImageBytes := none }

/-- The statement `if err != nil { fmt.Println(err.Error()) }`. -/
def printlnErr (err : GoError) : List Event :=
  match err with
  | some m => [Event.stdout (m ++ "\n")]
  | none => []

/-- The calls of `LoadExisting` (line 138) on the cleared record. -/
def callLoadExisting {W O : Type} (env : Env W O) (gridDir : String) (artStyle : ArtStyle)
    (s : State W) (game : Game) : GameRet W Unit :=
  env.LoadExisting s.world (filepathJoin [env.exeDir, "games"]) gridDir (resetGame game)
    artStyle.extensions

/-- Lines 131-143: clear the image fields, `LoadExisting`, `RemoveExisting`. -/
def scanExisting {W O : Type} (env : Env W O) (gridDir : String) (ref : GameRef)
    (artStyle : ArtStyle) (s : State W) (game : Game) : Step W :=
  let le := callLoadExisting env gridDir artStyle s game
  let re := env.RemoveExisting le.world gridDir le.game.ID artStyle.extensions
  { state := { s with world := re.world }
    game := le.game
    events :=
      [Event.LoadExisting ref artStyle, Event.RemoveExisting ref artStyle re.val] ++
        printlnErr re.val }

/-- The call of `DownloadImage` on line 149. -/
def callDownloadImage {W O : Type} (env : Env W O) (steamGridFilter gridDir : String)
    (artStyle : ArtStyle) (s : State W) (game : Game) : GameRet W (String × GoError) :=
  env.DownloadImage s.world gridDir game artStyle.name artStyle.extensions
    s.config.SkipSteam s.config.SteamGridDBAPIKey steamGridFilter s.config.IGDBAPIKey
    s.config.SkipGoogle

/-- Lines 149-175, the body of `if game.ImageSource == ""`.  The Boolean is `true` when the
`continue` of line 162 is taken. -/
def downloadMissing {W O : Type} (env : Env W O) (steamGridFilter gridDir : String)
    (ref : GameRef) (artStyle : ArtStyle) (s : State W) (game : Game) : Step W × Bool :=
  let dl := callDownloadImage env steamGridFilter gridDir artStyle s game
  let origin := dl.val.1
  let err := dl.val.2
  let s1 : State W := { s with world := dl.world }
  let s2 : State W :=
    if err = some authErrorText then
      { s1 with config := { s1.config with SteamGridDBAPIKey := "" } }
    else s1
  let ev2 : List Event :=
    [Event.DownloadImage ref artStyle s.config.SteamGridDBAPIKey origin err] ++ printlnErr err
  if dl.game.ImageSource = "" then
    ({ state := { s2 with notFounds := s2.notFounds.push artStyle ref }
       game := dl.game
       events := ev2 ++ [Event.stdout (artStyle.name ++ " not found\n")] },
     true)
  else
    let s3 : State W :=
      if err = none then { s2 with nDownloaded := s2.nDownloaded + 1 } else s2
    let s4 : State W :=
      if origin = "IGDB" then { s3 with IGDB := s3.IGDB.push artStyle ref }
      else if origin = "SteamGridDB" then
        { s3 with steamGridDB := s3.steamGridDB.push artStyle ref }
      else if origin = "search" then
        { s3 with searchedGames := s3.searchedGames.push artStyle ref }
      else s3
    ({ state := s4, game := dl.game, events := ev2 }, false)

/-- The path of the image of a game for a style (line 207). -/
def imagePath (gridDir : String) (artStyle : ArtStyle) (game : Game) : String :=
  filepathJoin [gridDir, game.ID ++ artStyle.idExtension ++ game.ImageExt]

/-- The path of the legacy copy (line 214) for the parsed identifier `id`. -/
def legacyPath (gridDir : String) (artStyle : ArtStyle) (game : Game) (id : Nat) : String :=
  filepathJoin [gridDir, FormatUint (legacyID id) ++ artStyle.idExtension ++ game.ImageExt]

/-- The line of line 219. -/
def failedWriteLine (artStyle : ArtStyle) (game : Game) (m : String) : String :=
  "Failed to write image for " ++ game.Name ++ " (" ++ artStyle.name ++ ") because: " ++ m ++
    "\n"

/-- The write of line 208. -/
def callWriteImage {W O : Type} (env : Env W O) (gridDir : String) (artStyle : ArtStyle)
    (w : W) (game : Game) : Ret W GoError :=
  env.WriteFile w (imagePath gridDir artStyle game) game.OverlayImageBytes

/-- Lines 210-217: the copy with the legacy name, for the Banner style and an identifier
that parses.  The `err` it assigns is the one declared by `:=` on line 212, local to the
`if` block. -/
def legacyCopy {W O : Type} (env : Env W O) (gridDir : String) (artStyle : ArtStyle)
    (w : W) (game : Game) : Ret W (List Event) :=
  if artStyle.name = "Banner" then
    match ParseUint game.ID with
    | some id =>
      let wl := env.WriteFile w (legacyPath gridDir artStyle game id) game.OverlayImageBytes
      { val := [Event.WriteFile (legacyPath gridDir artStyle game id) game.OverlayImageBytes
                  wl.val]
        world := wl.world }
    | none => { val := [], world := w }
  else { val := [], world := w }

/-- Lines 207-220: the primary image write, the legacy copy, and the check of `err`.  Line 218
reads the `err` declared on line 187, which holds the result of the write of line 208; the
result of the write of line 215 went to the inner `err` of line 212. -/
def saveResult {W O : Type} (env : Env W O) (gridDir : String) (artStyle : ArtStyle)
    (w : W) (game : Game) : Ret W (List Event) :=
  let wr := callWriteImage env gridDir artStyle w game
  let lc := legacyCopy env gridDir artStyle wr.world game
  { val :=
      [Event.WriteFile (imagePath gridDir artStyle game) game.OverlayImageBytes wr.val] ++
        lc.val ++
        (match wr.val with
         | some m => [Event.stdout (failedWriteLine artStyle game m)]
         | none => [])
    world := lc.world }

/-- Lines 193-197: the game record after the test of `game.OverlayImageBytes != nil`. -/
def fallbackToClean (game : Game) : Game :=
  if game.OverlayImageBytes ≠ none then game
  else { game with OverlayImageBytes := game.CleanImageBytes }

/-- The call of `ApplyOverlay` on line 187. -/
def callApplyOverlay {W O : Type} (env : Env W O) (overlays : O) (artStyle : ArtStyle)
    (s : State W) (game : Game) : GameRet W GoError :=
  env.ApplyOverlay s.world game overlays artStyle.extensions

/-- The game record after lines 187-197: `ApplyOverlay`, then the fall-back to the clean
bytes. -/
def overlaidGame {W O : Type} (env : Env W O) (overlays : O) (artStyle : ArtStyle)
    (s : State W) (game : Game) : Game :=
  fallbackToClean (callApplyOverlay env overlays artStyle s game).game

/-- The call of `BackupGame` on line 202. -/
def callBackupGame {W O : Type} (env : Env W O) (overlays : O) (gridDir : String)
    (artStyle : ArtStyle) (s : State W) (game : Game) : Ret W GoError :=
  let ao := callApplyOverlay env overlays artStyle s game
  env.BackupGame ao.world gridDir (fallbackToClean ao.game) artStyle.extensions

/-- Lines 176-220: report the source, `ApplyOverlay`, fall back to the clean bytes,
`BackupGame`, and the writes. -/
def overlayAndSave {W O : Type} (env : Env W O) (overlays : O) (gridDir : String)
    (ref : GameRef) (artStyle : ArtStyle) (s : State W) (game : Game) : Step W :=
  let ao := callApplyOverlay env overlays artStyle s game
  let s2 : State W :=
    match ao.val with
    | some m =>
      { s with
        failedGames := s.failedGames.push artStyle ref
        errorMessages := s.errorMessages ++ [m] }
    | none => s
  let s3 : State W :=
    if ao.game.OverlayImageBytes ≠ none then
      { s2 with nOverlaysApplied := s2.nOverlaysApplied + 1 }
    else s2
  let bk := callBackupGame env overlays gridDir artStyle s game
  let ev4 : List Event :=
    [Event.stdout (artStyle.name ++ " found from " ++ game.ImageSource ++ "\n"),
     Event.ApplyOverlay ref artStyle ao.val] ++
      (match ao.val with
       | some m => [Event.stderr (m ++ "\n")]
       | none => []) ++
      [Event.BackupGame ref artStyle bk.val]
  let fin : Run W :=
    match bk.val with
    | some m => errorAndExit { s3 with world := bk.world } m
    | none =>
      let sv := saveResult env gridDir artStyle bk.world
        (overlaidGame env overlays artStyle s game)
      { state := { s3 with world := sv.world }, trace := sv.val }
  { state := fin.state, game := overlaidGame env overlays artStyle s game,
    events := ev4 ++ fin.trace }

/-- Lines 131-175: the scan for an existing image and, when it finds none, the download.  The
Boolean is `true` when the `continue` of line 162 is taken, `false` when line 176 is reached. -/
def findImage {W O : Type} (env : Env W O) (steamGridFilter gridDir : String)
    (ref : GameRef) (artStyle : ArtStyle) (s : State W) (game : Game) : Step W × Bool :=
  let sc := scanExisting env gridDir ref artStyle s game
  if sc.game.ImageSource = "" then
    let dl := downloadMissing env steamGridFilter gridDir ref artStyle sc.state sc.game
    ({ dl.1 with events := sc.events ++ dl.1.events }, dl.2)
  else (sc, false)

/-- Lines 131-220: the body of `for artStyle, artStyleExtensions := range artStyles`. -/
def styleBody {W O : Type} (env : Env W O) (overlays : O) (steamGridFilter gridDir : String)
    (ref : GameRef) (artStyle : ArtStyle) (s : State W) (game : Game) : Step W :=
  let f := findImage env steamGridFilter gridDir ref artStyle s game
  if f.2 then f.1
  else
    let os := overlayAndSave env overlays gridDir ref artStyle f.1.state f.1.game
    { os with events := f.1.events ++ os.events }

/-- The loop of line 130 over the styles in the order given; nothing runs after an exit. -/
def stylesLoop {W O : Type} (env : Env W O) (overlays : O) (steamGridFilter gridDir : String)
    (ref : GameRef) : List ArtStyle → State W → Game → Step W
  | [], s, game => { state := s, game := game, events := [] }
  | a :: rest, s, game =>
    if s.exited then { state := s, game := game, events := [] }
    else
      let r := styleBody env overlays steamGridFilter gridDir ref a s game
      let t := stylesLoop env overlays steamGridFilter gridDir ref rest r.state r.game
      { t with events := r.events ++ t.events }

/-- Lines 116-221: the body of `for _, game := range games`; `i` is the counter after `i++`,
`total` is `len(games)`. -/
def gameBody {W O : Type} (env : Env W O) (overlays : O) (steamGridFilter gridDir : String)
    (user total i : Nat) (s : State W) (game : Game) : Run W :=
  let gn := env.GetGameName s.world game.ID
  let game1 : Game := if game.Name = "" then { game with Name := gn.val } else game
  let s1 : State W := if game.Name = "" then { s with world := gn.world } else s
  let name := if game1.Name ≠ "" then game1.Name else "unknown game with id " ++ game1.ID
  let ev1 : List Event :=
    (if game.Name = "" then [Event.GetGameName game.ID] else []) ++
      [Event.stdout ("Processing " ++ name ++ " (" ++ toString i ++ "/" ++ toString total ++
        ")\n")]
  let r := stylesLoop env overlays steamGridFilter gridDir ⟨user, i - 1⟩
    (env.styleOrder user (i - 1)).val s1 game1
  { state := r.state, trace := ev1 ++ r.events }

/-- The loop of line 115; `i` is the value of the counter before the iteration. -/
def gamesLoop {W O : Type} (env : Env W O) (overlays : O) (steamGridFilter gridDir : String)
    (user total : Nat) : Nat → List Game → State W → Run W
  | _, [], s => { state := s, trace := [] }
  | i, game :: rest, s =>
    if s.exited then { state := s, trace := [] }
    else
      let r := gameBody env overlays steamGridFilter gridDir user total (i + 1) s game
      let t := gamesLoop env overlays steamGridFilter gridDir user total (i + 1) rest r.state
      { t with trace := r.trace ++ t.trace }

/-- The grid directory of a user (line 103). -/
def gridDirOf (user : User) : String := filepathJoin [user.Dir, "config", "grid"]

/-- Lines 102-222: the body of `for _, user := range users`; `u` is the position of the user. -/
def userBody {W O : Type} (env : Env W O) (overlays : O) (steamGridFilter : String)
    (u : Nat) (user : User) (s : State W) : Run W :=
  let originals := filepathJoin [gridDirOf user, "originals"]
  let mk := env.MkdirAll s.world originals
  let s1 : State W := { s with world := mk.world }
  let ev1 : List Event :=
    [Event.stdout ("Loading games for " ++ user.Name ++ "\n"), Event.MkdirAll originals mk.val]
  match mk.val with
  | some m =>
    let x := errorAndExit s1 m
    { x with trace := ev1 ++ x.trace }
  | none =>
    let gg := env.GetGames s1.world user s1.config.OnlyNonSteamGames
    let s2 : State W := { s1 with world := gg.world }
    let r := gamesLoop env overlays steamGridFilter (gridDirOf user) u gg.val.length 0 gg.val s2
    { r with
      trace := ev1 ++
        [Event.GetGames u gg.val.length,
         Event.stdout "Loading existing images and backups...\n"] ++ r.trace }

/-- The loop of line 101; `u` is the position of the first user of the list. -/
def usersLoop {W O : Type} (env : Env W O) (overlays : O) (steamGridFilter : String) :
    Nat → List User → State W → Run W
  | _, [], s => { state := s, trace := [] }
  | u, user :: rest, s =>
    if s.exited then { state := s, trace := [] }
    else
      let r := userBody env overlays steamGridFilter u user s
      let t := usersLoop env overlays steamGridFilter (u + 1) rest r.state
      { t with trace := r.trace ++ t.trace }

/-- Lines 67-99: the counters and buckets before the first user. -/
def initState {W : Type} (config : Config) (w : W) : State W :=
  { world := w
    config := config
    nOverlaysApplied := 0
    nDownloaded := 0
    notFounds := Buckets.empty
    steamGridDB := Buckets.empty
    IGDB := Buckets.empty
    searchedGames := Buckets.empty
    failedGames := Buckets.empty
    errorMessages := []
    exited := false }

/-- The line printed after `LoadOverlays` (lines 46-50). -/
def overlaysLine (n : Nat) : String :=
  if n = 0 then
    "No category overlays found. You can put overlay images in the folder 'overlays by category', where the filename is the game category.\n\nYou can find many user-created overlays at https://www.reddit.com/r/steamgrid/wiki/overlays .\n\nContinuing without overlays...\n\n"
  else
    "Loaded " ++ toString n ++
      " overlays. \n\nYou can find many user-created overlays at https://www.reddit.com/r/steamgrid/wiki/overlays .\n\n"

/-- The line printed before `GetSteamInstallation` (line 52). -/
def lookingLine : String :=
  "Looking for Steam directory...\nIf SteamGrid doesn´t find the directory automatically, launch it with an argument linking to the Steam directory.\n"

/-- The error of line 64. -/
def noUsersText : String :=
  "No users found at Steam/userdata. Have you used Steam before in this computer?"

/-- The value of `steamGridFilter` (line 39). -/
def steamGridFilterOf (config : Config) : String :=
  "?styles=" ++ config.SteamGridDBArtstyle ++ "&types=" ++ config.SteamGridDBType

/-- Lines 23-223 of `startApplication`: set-up, then the loop over the users. -/
def startApplication {W O : Type} (env : Env W O) (config : Config) (w : W) : Run W :=
  let s0 : State W := initState config w
  let lo := env.LoadOverlays s0.world (filepathJoin [env.exeDir, "overlays by category"]) artStyles
  let s1 : State W := { s0 with world := lo.world }
  let ev1 : List Event := [Event.stdout "Loading overlays...\n", Event.LoadOverlays lo.val.2]
  match lo.val.2 with
  | some m =>
    let x := errorAndExit s1 m
    { x with trace := ev1 ++ x.trace }
  | none =>
    let gi := env.GetSteamInstallation s1.world config.SteamPath
    let s2 : State W := { s1 with world := gi.world }
    let ev2 : List Event :=
      ev1 ++ [Event.stdout (overlaysLine (env.lenOverlays lo.val.1)), Event.stdout lookingLine,
        Event.GetSteamInstallation gi.val.2]
    match gi.val.2 with
    | some m =>
      let x := errorAndExit s2 m
      { x with trace := ev2 ++ x.trace }
    | none =>
      let gu := env.GetUsers s2.world gi.val.1
      let s3 : State W := { s2 with world := gu.world }
      let ev3 : List Event := ev2 ++ [Event.stdout "Loading users...\n", Event.GetUsers gu.val.2]
      match gu.val.2 with
      | some m =>
        let x := errorAndExit s3 m
        { x with trace := ev3 ++ x.trace }
      | none =>
        if gu.val.1.length = 0 then
          let x := errorAndExit s3 noUsersText
          { x with trace := ev3 ++ x.trace }
        else
          let r := usersLoop env lo.val.1 (steamGridFilterOf config) 0 gu.val.1 s3
          { r with trace := ev3 ++ r.trace }

/-! ## Observers of traces -/

/-- The `(path, data)` pairs of the `WriteFile` calls of a trace, in order. -/
def writesOf : List Event → List (String × Bytes)
  | [] => []
  | Event.WriteFile path data _ :: rest => (path, data) :: writesOf rest
  | _ :: rest => writesOf rest

/-- The lines printed on standard output by a trace, in order. -/
def stdoutOf : List Event → List String
  | [] => []
  | Event.stdout text :: rest => text :: stdoutOf rest
  | _ :: rest => stdoutOf rest

/-- The event is a call of `DownloadImage`. -/
def Event.isDownload : Event → Bool
  | Event.DownloadImage _ _ _ _ _ => true
  | _ => false

/-- The event is a call of `ApplyOverlay`. -/
def Event.isApplyOverlay : Event → Bool
  | Event.ApplyOverlay _ _ _ => true
  | _ => false

/-- The event is a call of `BackupGame`. -/
def Event.isBackupGame : Event → Bool
  | Event.BackupGame _ _ _ => true
  | _ => false

/-- The event is a call of `WriteFile`. -/
def Event.isWriteFile : Event → Bool
  | Event.WriteFile _ _ _ => true
  | _ => false

/-- An event satisfying `p` occurs in the trace, and an event satisfying `q` occurs after the
first of them. -/
def occursBefore (p q : Event → Bool) (evs : List Event) : Bool :=
  match evs.dropWhile (fun e => !p e) with
  | [] => false
  | _ :: rest => rest.any q

/-! ## A small library used to run the embedding -/

/-- Two games: one with a numeric identifier, one without and with image fields left over
from an earlier pass. -/
def demoGames : List Game :=
  [{ ID := "12345", Name := "Test Game", ImageSource := "", ImageExt := "",
     CleanImageBytes := none, OverlayImageBytes := none },
   { ID := "abc", Name := "", ImageSource := "stale", ImageExt := ".jpg",
     CleanImageBytes := some [7], OverlayImageBytes := some [8] }]

/-- One user with the two games of `demoGames`; no source finds an image, nothing fails. -/
def demoEnv : Env Unit Unit where
  exeDir := "/opt/steamgrid"
  lenOverlays := fun _ => 0
  LoadOverlays := fun w _ _ => { val := ((), none), world := w }
  GetSteamInstallation := fun w _ => { val := ("/steam", none), world := w }
  GetUsers := fun w _ =>
    { val := ([{ Name := "alice", Dir := "/steam/userdata/1" }], none), world := w }
  MkdirAll := fun w _ => { val := none, world := w }
  GetGames := fun w _ _ => { val := demoGames, world := w }
  GetGameName := fun w _ => { val := "", world := w }
  LoadExisting := fun w _ _ g _ => { val := (), game := g, world := w }
  RemoveExisting := fun w _ _ _ => { val := none, world := w }
  DownloadImage := fun w _ g _ _ _ _ _ _ _ => { val := ("", none), game := g, world := w }
  ApplyOverlay := fun w g _ _ => { val := none, game := g, world := w }
  BackupGame := fun w _ _ _ => { val := none, world := w }
  WriteFile := fun w _ _ => { val := none, world := w }
  styleOrder := fun _ _ => ⟨ArtStyle.all, List.Perm.refl _⟩

/-- The configuration used with the demonstration library. -/
def demoConfig : Config :=
  { SteamPath := "", SteamGridDBAPIKey := "key", SteamGridDBArtstyle := "alternate",
    SteamGridDBType := "static", IGDBAPIKey := "", OnlyNonSteamGames := false,
    SkipSteam := false, SkipGoogle := false }

/-- The game with a numeric identifier. -/
def demoGame : Game :=
  { ID := "12345", Name := "Test Game", ImageSource := "", ImageExt := "",
    CleanImageBytes := none, OverlayImageBytes := none }

/-- The game of the end-to-end scenario of the specification. -/
def specGame : Game :=
  { ID := "100", Name := "Test Game", ImageSource := "", ImageExt := "",
    CleanImageBytes := none, OverlayImageBytes := none }

/-- The image an existing file or a provider delivers in the demonstrations. -/
def foundGame (g : Game) (source : String) : Game :=
  { g with ImageSource := source, ImageExt := ".png", CleanImageBytes := some [1, 2, 3] }

/-- As `demoEnv`, with an override image present for every game and style. -/
def overrideEnv : Env Unit Unit :=
  { demoEnv with
    LoadExisting := fun w _ _ g _ => { val := (), game := foundGame g "override", world := w } }

/-- As `overrideEnv`, with `BackupGame` failing. -/
def backupFailEnv : Env Unit Unit :=
  { overrideEnv with
    BackupGame := fun w _ _ _ => { val := some "read-only file system", world := w } }

/-- As `overrideEnv`, with the write of `/g/12345.png` failing and every other write
succeeding. -/
def primaryFailEnv : Env Unit Unit :=
  { overrideEnv with
    WriteFile := fun w path _ =>
      { val := if path = "/g/12345.png" then some "disk full" else none, world := w } }

/-- As `demoEnv`, with `DownloadImage` delivering an image from SteamGridDB. -/
def steamGridEnv : Env Unit Unit :=
  { demoEnv with
    DownloadImage := fun w _ g _ _ _ _ _ _ _ =>
      { val := ("SteamGridDB", none), game := foundGame g "SteamGridDB", world := w } }

/-- As `steamGridEnv`, with `DownloadImage` returning an error next to the image. -/
def steamGridErrEnv : Env Unit Unit :=
  { demoEnv with
    DownloadImage := fun w _ g _ _ _ _ _ _ _ =>
      { val := ("SteamGridDB", some "low resolution only"), game := foundGame g "SteamGridDB",
        world := w } }

/-- As `demoEnv`, with `DownloadImage` finding nothing and returning the authorization error
whenever it is passed a non-empty SteamGridDB API key. -/
def authFailEnv : Env Unit Unit :=
  { demoEnv with
    DownloadImage := fun w _ g _ _ _ key _ _ _ =>
      { val := ("", if key = "" then none else some authErrorText), game := g, world := w } }

/-- As `overrideEnv`, with `ApplyOverlay` failing and leaving the overlay bytes unset. -/
def overlayFailEnv : Env Unit Unit :=
  { overrideEnv with
    ApplyOverlay := fun w g _ _ => { val := some "image: unknown format", game := g, world := w } }

/-- The call of `DownloadImage` an iteration makes when its scan finds no image. -/
def iterationDownload {W O : Type} (env : Env W O) (filter gridDir : String) (ref : GameRef)
    (a : ArtStyle) (s : State W) (game : Game) : GameRet W (String × GoError) :=
  callDownloadImage env filter gridDir a (scanExisting env gridDir ref a s game).state
    (scanExisting env gridDir ref a s game).game

/-- The call of `ApplyOverlay` an iteration makes when it reaches line 176. -/
def iterationOverlay {W O : Type} (env : Env W O) (overlays : O) (filter gridDir : String)
    (ref : GameRef) (a : ArtStyle) (s : State W) (game : Game) : GameRet W GoError :=
  callApplyOverlay env overlays a (findImage env filter gridDir ref a s game).1.state
    (findImage env filter gridDir ref a s game).1.game

/-- The call of `BackupGame` an iteration makes when it reaches line 176. -/
def iterationBackup {W O : Type} (env : Env W O) (overlays : O) (filter gridDir : String)
    (ref : GameRef) (a : ArtStyle) (s : State W) (game : Game) : Ret W GoError :=
  callBackupGame env overlays gridDir a (findImage env filter gridDir ref a s game).1.state
    (findImage env filter gridDir ref a s game).1.game

/-- The event is a call of `DownloadImage` that returned the error of line 150. -/
def Event.isAuthFailure : Event → Bool
  | Event.DownloadImage _ _ _ _ err => decide (err = some authErrorText)
  | _ => false

/-- The SteamGridDB API key passed to `DownloadImage`, for an event that is such a call. -/
def Event.downloadKey : Event → Option String
  | Event.DownloadImage _ _ apiKey _ _ => some apiKey
  | _ => none

/-- The configuration with the SteamGridDB API key cleared (line 152). -/
def clearKey (c : Config) : Config := { c with SteamGridDBAPIKey := "" }

/-- A pair of events, the first before the second, respects the clearing of the key: if the
first is a call of `DownloadImage` that returned the authorization error and the second is a
call of `DownloadImage`, the second was passed the empty API key. -/
def keyRespected (e₁ e₂ : Event) : Prop :=
  e₁.isAuthFailure = true → ∀ k, e₂.downloadKey = some k → k = ""

/-- How a stretch of code that starts with configuration `c₀`, ends with `c₁` and produces
the trace `tr` treats the SteamGridDB API key. -/
structure KeyOK (c₀ c₁ : Config) (tr : List Event) : Prop where
  pairwise : tr.Pairwise keyRespected
  keys : ∀ e ∈ tr, ∀ k, e.downloadKey = some k → k = c₀.SteamGridDBAPIKey ∨ k = ""
  cleared : (∃ e ∈ tr, e.isAuthFailure = true) → c₁ = clearKey c₀
  kept : (¬ ∃ e ∈ tr, e.isAuthFailure = true) → c₁ = c₀

/-- The event is a call of `GetGames`. -/
def Event.isGetGames : Event → Bool
  | Event.GetGames _ _ => true
  | _ => false

/-- The event belongs to the composite and persist steps: a call of `ApplyOverlay`, of
`BackupGame` or of `WriteFile`. -/
def Event.isSaveStep (e : Event) : Bool :=
  e.isApplyOverlay || e.isBackupGame || e.isWriteFile

/-- The games a run enumerated, in the order of enumeration: for every call of `GetGames`,
made for the user at position `u` and returning `n` games, the references to the games at
positions `0, ..., n - 1` of that user. -/
def enumerated : List Event → List GameRef
  | [] => []
  | Event.GetGames u n :: rest => (List.range n).map (GameRef.mk u) ++ enumerated rest
  | _ :: rest => enumerated rest

/-- The state `r` differs from `s` at most in the world, the configuration, the not-found
buckets and the exit flag. -/
structure Idle {W : Type} (s r : State W) : Prop where
  nOverlaysApplied : r.nOverlaysApplied = s.nOverlaysApplied
  nDownloaded : r.nDownloaded = s.nDownloaded
  steamGridDB : r.steamGridDB = s.steamGridDB
  IGDB : r.IGDB = s.IGDB
  searchedGames : r.searchedGames = s.searchedGames
  failedGames : r.failedGames = s.failedGames

/-- No source finds an image: `LoadExisting` and `DownloadImage` leave an empty image source
empty. -/
def NothingFound {W O : Type} (env : Env W O) : Prop :=
  (∀ w p d g e, g.ImageSource = "" → (env.LoadExisting w p d g e).game.ImageSource = "") ∧
  (∀ w d g n e b₁ k f k₂ b₂, g.ImageSource = "" →
    (env.DownloadImage w d g n e b₁ k f k₂ b₂).game.ImageSource = "")

/-- What a stretch of the run does when no source finds an image: the not-found bucket of
every style grows by the games enumerated, nothing else is recorded, and no overlay, backup
or image write is made. -/
structure NotFoundRun {W : Type} (s : State W) (r : Run W) : Prop where
  notFounds : ∀ a, r.state.notFounds a = s.notFounds a ++ enumerated r.trace
  idle : Idle s r.state
  quiet : r.trace.any Event.isSaveStep = false

/-- As `demoEnv`, with the art styles visited in the opposite order. -/
def reversedEnv : Env Unit Unit :=
  { demoEnv with
    styleOrder := fun _ _ =>
      ⟨[ArtStyle.Logo, ArtStyle.Hero, ArtStyle.Cover, ArtStyle.Banner], by decide⟩ }

/-- Every game the trace enumerates is scanned for each of the four styles: for every call of
`GetGames` for user `u` returning `n` games, and every position `i < n` and style `a`, the
trace holds the call of `LoadExisting` for that game and style. -/
def Covered (tr : List Event) : Prop :=
  ∀ u n, Event.GetGames u n ∈ tr → ∀ i, i < n → ∀ a, Event.LoadExisting ⟨u, i⟩ a ∈ tr

/-- As `overrideEnv`, with every call of `WriteFile` failing. -/
def writeFailEnv : Env Unit Unit :=
  { overrideEnv with WriteFile := fun w _ _ => { val := some "disk full", world := w } }

/-- The users for whom the trace holds a call of `GetGames`, in the order of the calls. -/
def usersVisited : List Event → List Nat
  | [] => []
  | Event.GetGames u _ :: rest => u :: usersVisited rest
  | _ :: rest => usersVisited rest

/-- The call of `LoadOverlays` on line 42. -/
def callLoadOverlays {W O : Type} (env : Env W O) (w : W) : Ret W (O × GoError) :=
  env.LoadOverlays w (filepathJoin [env.exeDir, "overlays by category"]) artStyles

/-- The call of `GetSteamInstallation` on line 53, in the world `LoadOverlays` leaves. -/
def callGetSteamInstallation {W O : Type} (env : Env W O) (config : Config) (w : W) :
    Ret W (String × GoError) :=
  env.GetSteamInstallation (callLoadOverlays env w).world config.SteamPath

/-- The call of `GetUsers` on line 59, in the world `GetSteamInstallation` leaves. -/
def callGetUsers {W O : Type} (env : Env W O) (config : Config) (w : W) :
    Ret W (List User × GoError) :=
  env.GetUsers (callGetSteamInstallation env config w).world
    (callGetSteamInstallation env config w).val.1

/-- The set-up of lines 41-65 reaches the loop of line 101: the three calls return no error
and `GetUsers` returns at least one user. -/
def SetUpDone {W O : Type} (env : Env W O) (config : Config) (w : W) : Prop :=
  (callLoadOverlays env w).val.2 = none ∧
  (callGetSteamInstallation env config w).val.2 = none ∧
  (callGetUsers env config w).val.2 = none ∧
  (callGetUsers env config w).val.1 ≠ []

/-- What an environment that keeps a record of its calls of `DownloadImage` has recorded: for
each call, the SteamGridDB API key it was passed and the error it returned. -/
abbrev DownloadLog := List (String × GoError)

/-- The environment `env` with a record of the calls of `DownloadImage` added to the world:
every collaborator behaves as in `env`, and `DownloadImage` appends to the record the API key
it receives as its argument and the error it returns. -/
def recording {W O : Type} (env : Env W O) : Env (W × DownloadLog) O where
  exeDir := env.exeDir
  lenOverlays := env.lenOverlays
  LoadOverlays := fun w p t =>
    { val := (env.LoadOverlays w.1 p t).val, world := ((env.LoadOverlays w.1 p t).world, w.2) }
  GetSteamInstallation := fun w p =>
    { val := (env.GetSteamInstallation w.1 p).val
      world := ((env.GetSteamInstallation w.1 p).world, w.2) }
  GetUsers := fun w p =>
    { val := (env.GetUsers w.1 p).val, world := ((env.GetUsers w.1 p).world, w.2) }
  MkdirAll := fun w p =>
    { val := (env.MkdirAll w.1 p).val, world := ((env.MkdirAll w.1 p).world, w.2) }
  GetGames := fun w u b =>
    { val := (env.GetGames w.1 u b).val, world := ((env.GetGames w.1 u b).world, w.2) }
  GetGameName := fun w i =>
    { val := (env.GetGameName w.1 i).val, world := ((env.GetGameName w.1 i).world, w.2) }
  LoadExisting := fun w p d g e =>
    { val := ()
      game := (env.LoadExisting w.1 p d g e).game
      world := ((env.LoadExisting w.1 p d g e).world, w.2) }
  RemoveExisting := fun w d i e =>
    { val := (env.RemoveExisting w.1 d i e).val
      world := ((env.RemoveExisting w.1 d i e).world, w.2) }
  DownloadImage := fun w d g n e b₁ key f k₂ b₂ =>
    { val := (env.DownloadImage w.1 d g n e b₁ key f k₂ b₂).val
      game := (env.DownloadImage w.1 d g n e b₁ key f k₂ b₂).game
      world := ((env.DownloadImage w.1 d g n e b₁ key f k₂ b₂).world,
        w.2 ++ [(key, (env.DownloadImage w.1 d g n e b₁ key f k₂ b₂).val.2)]) }
  ApplyOverlay := fun w g o e =>
    { val := (env.ApplyOverlay w.1 g o e).val
      game := (env.ApplyOverlay w.1 g o e).game
      world := ((env.ApplyOverlay w.1 g o e).world, w.2) }
  BackupGame := fun w d g e =>
    { val := (env.BackupGame w.1 d g e).val, world := ((env.BackupGame w.1 d g e).world, w.2) }
  WriteFile := fun w p d =>
    { val := (env.WriteFile w.1 p d).val, world := ((env.WriteFile w.1 p d).world, w.2) }
  styleOrder := env.styleOrder

/-- The calls of `DownloadImage` of a trace, as the trace describes them: for each, the API
key and the error of the event. -/
def downloadLog : List Event → DownloadLog
  | [] => []
  | Event.DownloadImage _ _ apiKey _ err :: rest => (apiKey, err) :: downloadLog rest
  | _ :: rest => downloadLog rest

/-- Two users, each with the two games of `demoGames`; no source finds an image. -/
def twoUserEnv : Env Unit Unit :=
  { demoEnv with
    GetUsers := fun w _ =>
      { val := ([{ Name := "alice", Dir := "/steam/userdata/1" },
                 { Name := "bob", Dir := "/steam/userdata/2" }], none), world := w } }

/-- Two users, each with the two games of `demoGames`; an override image is present for
every game and style, and every call of `WriteFile` fails. -/
def twoUserWriteFailEnv : Env Unit Unit :=
  { writeFailEnv with
    GetUsers := fun w _ =>
      { val := ([{ Name := "alice", Dir := "/steam/userdata/1" },
                 { Name := "bob", Dir := "/steam/userdata/2" }], none), world := w } }

/-- As `twoUserEnv`, with the art styles visited in the opposite order. -/
def twoUserReversedEnv : Env Unit Unit :=
  { twoUserEnv with
    styleOrder := fun _ _ =>
      ⟨[ArtStyle.Logo, ArtStyle.Hero, ArtStyle.Cover, ArtStyle.Banner], by decide⟩ }

/-! ## Lemmas on observers and stages -/

theorem writesOf_append (l₁ l₂ : List Event) :
    writesOf (l₁ ++ l₂) = writesOf l₁ ++ writesOf l₂ := by
  induction l₁ with
  | nil => rfl
  | cons e l ih => cases e <;> simp [writesOf, ih]

theorem stdoutOf_append (l₁ l₂ : List Event) :
    stdoutOf (l₁ ++ l₂) = stdoutOf l₁ ++ stdoutOf l₂ := by
  induction l₁ with
  | nil => rfl
  | cons e l ih => cases e <;> simp [stdoutOf, ih]

theorem writesOf_eq_nil (l : List Event) (h : l.any Event.isWriteFile = false) :
    writesOf l = [] := by
  induction l with
  | nil => rfl
  | cons e l ih =>
    cases e <;> simp_all [writesOf, Event.isWriteFile]

theorem name_eq_banner (a : ArtStyle) : a.name = "Banner" ↔ a = ArtStyle.Banner := by
  cases a <;> simp [ArtStyle.name]

theorem any_printlnErr (p : Event → Bool) (ho : ∀ t, p (Event.stdout t) = false)
    (err : GoError) : (printlnErr err).any p = false := by
  cases err <;> simp [printlnErr, ho]

theorem scanExisting_state {W O : Type} (env : Env W O) (gridDir : String) (ref : GameRef)
    (a : ArtStyle) (s : State W) (game : Game) :
    (scanExisting env gridDir ref a s game).state =
      { s with world := (scanExisting env gridDir ref a s game).state.world } := rfl

theorem scanExisting_game {W O : Type} (env : Env W O) (gridDir : String) (ref : GameRef)
    (a : ArtStyle) (s : State W) (game : Game) :
    (scanExisting env gridDir ref a s game).game = (callLoadExisting env gridDir a s game).game :=
  rfl

theorem any_scanExisting {W O : Type} (env : Env W O) (gridDir : String) (ref : GameRef)
    (a : ArtStyle) (s : State W) (game : Game) (p : Event → Bool)
    (ho : ∀ t, p (Event.stdout t) = false)
    (h1 : ∀ r b, p (Event.LoadExisting r b) = false)
    (h2 : ∀ r b e, p (Event.RemoveExisting r b e) = false) :
    (scanExisting env gridDir ref a s game).events.any p = false := by
  simp [scanExisting, any_printlnErr p ho, h1, h2]

theorem downloadMissing_events {W O : Type} (env : Env W O) (filter gridDir : String)
    (ref : GameRef) (a : ArtStyle) (s : State W) (game : Game) :
    (downloadMissing env filter gridDir ref a s game).1.events =
      [Event.DownloadImage ref a s.config.SteamGridDBAPIKey
          (callDownloadImage env filter gridDir a s game).val.1
          (callDownloadImage env filter gridDir a s game).val.2] ++
        printlnErr (callDownloadImage env filter gridDir a s game).val.2 ++
        (if (callDownloadImage env filter gridDir a s game).game.ImageSource = "" then
          [Event.stdout (a.name ++ " not found\n")] else []) := by
  by_cases h : (callDownloadImage env filter gridDir a s game).game.ImageSource = ""
  · simp [downloadMissing, h]
  · simp [downloadMissing, h]

theorem downloadMissing_skip {W O : Type} (env : Env W O) (filter gridDir : String)
    (ref : GameRef) (a : ArtStyle) (s : State W) (game : Game) :
    (downloadMissing env filter gridDir ref a s game).2 =
      decide ((callDownloadImage env filter gridDir a s game).game.ImageSource = "") := by
  by_cases h : (callDownloadImage env filter gridDir a s game).game.ImageSource = ""
  · simp [downloadMissing, h]
  · simp [downloadMissing, h]

theorem downloadMissing_game {W O : Type} (env : Env W O) (filter gridDir : String)
    (ref : GameRef) (a : ArtStyle) (s : State W) (game : Game) :
    (downloadMissing env filter gridDir ref a s game).1.game =
      (callDownloadImage env filter gridDir a s game).game := by
  by_cases h : (callDownloadImage env filter gridDir a s game).game.ImageSource = ""
  · simp [downloadMissing, h]
  · simp [downloadMissing, h]

theorem any_downloadMissing {W O : Type} (env : Env W O) (filter gridDir : String)
    (ref : GameRef) (a : ArtStyle) (s : State W) (game : Game) (p : Event → Bool)
    (ho : ∀ t, p (Event.stdout t) = false)
    (h1 : ∀ r b k o e, p (Event.DownloadImage r b k o e) = false) :
    (downloadMissing env filter gridDir ref a s game).1.events.any p = false := by
  rw [downloadMissing_events]
  simp only [List.any_append, any_printlnErr p ho]
  split <;> simp [h1, ho]

theorem any_findImage {W O : Type} (env : Env W O) (filter gridDir : String)
    (ref : GameRef) (a : ArtStyle) (s : State W) (game : Game) (p : Event → Bool)
    (ho : ∀ t, p (Event.stdout t) = false)
    (h1 : ∀ r b, p (Event.LoadExisting r b) = false)
    (h2 : ∀ r b e, p (Event.RemoveExisting r b e) = false)
    (h3 : ∀ r b k o e, p (Event.DownloadImage r b k o e) = false) :
    (findImage env filter gridDir ref a s game).1.events.any p = false := by
  simp only [findImage]
  split
  · simp [any_scanExisting env gridDir ref a s game p ho h1 h2,
      any_downloadMissing env filter gridDir ref a _ _ p ho h3]
  · exact any_scanExisting env gridDir ref a s game p ho h1 h2

theorem any_saveResult {W O : Type} (env : Env W O) (gridDir : String) (a : ArtStyle)
    (w : W) (game : Game) (p : Event → Bool)
    (ho : ∀ t, p (Event.stdout t) = false)
    (h1 : ∀ x d e, p (Event.WriteFile x d e) = false) :
    (saveResult env gridDir a w game).val.any p = false := by
  simp only [saveResult, legacyCopy]
  split <;> split <;> (try split) <;> simp [h1, ho]

theorem overlayAndSave_events {W O : Type} (env : Env W O) (overlays : O) (gridDir : String)
    (ref : GameRef) (a : ArtStyle) (s : State W) (game : Game) :
    (overlayAndSave env overlays gridDir ref a s game).events =
      [Event.stdout (a.name ++ " found from " ++ game.ImageSource ++ "\n"),
       Event.ApplyOverlay ref a (callApplyOverlay env overlays a s game).val] ++
      (match (callApplyOverlay env overlays a s game).val with
       | some m => [Event.stderr (m ++ "\n")]
       | none => []) ++
      [Event.BackupGame ref a (callBackupGame env overlays gridDir a s game).val] ++
      (match (callBackupGame env overlays gridDir a s game).val with
       | some m => [Event.stdout (m ++ "\n"), Event.exit 0]
       | none =>
         (saveResult env gridDir a (callBackupGame env overlays gridDir a s game).world
           (overlaidGame env overlays a s game)).val) := by
  simp only [overlayAndSave]
  cases (callBackupGame env overlays gridDir a s game).val <;> simp [errorAndExit]

theorem overlayAndSave_game {W O : Type} (env : Env W O) (overlays : O) (gridDir : String)
    (ref : GameRef) (a : ArtStyle) (s : State W) (game : Game) :
    (overlayAndSave env overlays gridDir ref a s game).game =
      (overlaidGame env overlays a s game) := rfl

theorem any_overlayAndSave {W O : Type} (env : Env W O) (overlays : O) (gridDir : String)
    (ref : GameRef) (a : ArtStyle) (s : State W) (game : Game) (p : Event → Bool)
    (ho : ∀ t, p (Event.stdout t) = false) (he : ∀ t, p (Event.stderr t) = false)
    (hx : ∀ c, p (Event.exit c) = false)
    (h1 : ∀ x d e, p (Event.WriteFile x d e) = false)
    (h2 : ∀ r b e, p (Event.ApplyOverlay r b e) = false)
    (h3 : ∀ r b e, p (Event.BackupGame r b e) = false) :
    (overlayAndSave env overlays gridDir ref a s game).events.any p = false := by
  rw [overlayAndSave_events]
  simp only [List.any_append]
  cases (callApplyOverlay env overlays a s game).val <;>
    cases (callBackupGame env overlays gridDir a s game).val <;>
    simp [ho, he, hx, h2, h3, any_saveResult env gridDir a _ _ p ho h1]

/-- What lines 176-220 leave of the variables they do not assign. -/
theorem overlayAndSave_frame {W O : Type} (env : Env W O) (overlays : O) (gridDir : String)
    (ref : GameRef) (a : ArtStyle) (s : State W) (game : Game) :
    (overlayAndSave env overlays gridDir ref a s game).state.config = s.config ∧
    (overlayAndSave env overlays gridDir ref a s game).state.nDownloaded = s.nDownloaded ∧
    (overlayAndSave env overlays gridDir ref a s game).state.notFounds = s.notFounds ∧
    (overlayAndSave env overlays gridDir ref a s game).state.steamGridDB = s.steamGridDB ∧
    (overlayAndSave env overlays gridDir ref a s game).state.IGDB = s.IGDB ∧
    (overlayAndSave env overlays gridDir ref a s game).state.searchedGames = s.searchedGames := by
  simp only [overlayAndSave, errorAndExit]
  cases (callBackupGame env overlays gridDir a s game).val <;>
    cases (callApplyOverlay env overlays a s game).val <;>
    by_cases h : (callApplyOverlay env overlays a s game).game.OverlayImageBytes = none <;>
    simp [h]

theorem writesOf_saveResult {W O : Type} (env : Env W O) (gridDir : String) (a : ArtStyle)
    (w : W) (game : Game) :
    writesOf (saveResult env gridDir a w game).val =
      (imagePath gridDir a game, game.OverlayImageBytes) ::
        (if a = ArtStyle.Banner then
          match ParseUint game.ID with
          | some n => [(legacyPath gridDir a game n, game.OverlayImageBytes)]
          | none => []
         else []) := by
  simp only [saveResult, legacyCopy, writesOf_append, name_eq_banner]
  have h3 : ∀ o : GoError, writesOf (match o with
      | some m => [Event.stdout (failedWriteLine a game m)]
      | none => []) = [] := by
    intro o; cases o <;> rfl
  rw [h3]
  by_cases hb : a = ArtStyle.Banner
  · simp only [hb, if_true]
    cases hp : ParseUint game.ID <;> simp [writesOf]
  · simp [hb, writesOf]

theorem writesOf_overlayAndSave {W O : Type} (env : Env W O) (overlays : O) (gridDir : String)
    (ref : GameRef) (a : ArtStyle) (s : State W) (game : Game) :
    writesOf (overlayAndSave env overlays gridDir ref a s game).events =
      match (callBackupGame env overlays gridDir a s game).val with
      | some _ => []
      | none =>
        writesOf (saveResult env gridDir a (callBackupGame env overlays gridDir a s game).world
          (overlaidGame env overlays a s game)).val := by
  rw [overlayAndSave_events]
  simp only [writesOf_append]
  cases (callApplyOverlay env overlays a s game).val <;>
    cases (callBackupGame env overlays gridDir a s game).val <;> simp [writesOf]

theorem writesOf_findImage {W O : Type} (env : Env W O) (filter gridDir : String)
    (ref : GameRef) (a : ArtStyle) (s : State W) (game : Game) :
    writesOf (findImage env filter gridDir ref a s game).1.events = [] :=
  writesOf_eq_nil _ (any_findImage env filter gridDir ref a s game _ (fun _ => rfl)
    (fun _ _ => rfl) (fun _ _ _ => rfl) (fun _ _ _ _ _ => rfl))

theorem styleBody_of_found {W O : Type} (env : Env W O) (overlays : O) (filter gridDir : String)
    (ref : GameRef) (a : ArtStyle) (s : State W) (game : Game)
    (h : (findImage env filter gridDir ref a s game).2 = false) :
    styleBody env overlays filter gridDir ref a s game =
      { overlayAndSave env overlays gridDir ref a
          (findImage env filter gridDir ref a s game).1.state
          (findImage env filter gridDir ref a s game).1.game with
        events := (findImage env filter gridDir ref a s game).1.events ++
          (overlayAndSave env overlays gridDir ref a
            (findImage env filter gridDir ref a s game).1.state
            (findImage env filter gridDir ref a s game).1.game).events } := by
  simp [styleBody, h]

theorem styleBody_of_skip {W O : Type} (env : Env W O) (overlays : O) (filter gridDir : String)
    (ref : GameRef) (a : ArtStyle) (s : State W) (game : Game)
    (h : (findImage env filter gridDir ref a s game).2 = true) :
    styleBody env overlays filter gridDir ref a s game =
      (findImage env filter gridDir ref a s game).1 := by
  simp [styleBody, h]

/-! ## The claims about one iteration -/

/-- C1: for the Banner style and a game whose identifier parses as the unsigned 64-bit integer
`n`, the persist step writes the legacy copy under the decimal string of
`((n << 32) mod 2^64) | 0x02000000`, followed by Banner's id suffix (the empty string) and the
image extension; for the identifier `12345` this is `53021404823552` followed by the
extension. -/
theorem C1_legacy_banner_name {W O : Type} (env : Env W O) (gridDir : String) (w : W)
    (game : Game) (n : Nat) (h : ParseUint game.ID = some n) :
    (writesOf (saveResult env gridDir ArtStyle.Banner w game).val).map Prod.fst =
        [imagePath gridDir ArtStyle.Banner game,
         filepathJoin [gridDir,
           FormatUint (((n <<< 32) % 2 ^ 64) ||| 0x02000000) ++ "" ++ game.ImageExt]] ∧
      ArtStyle.Banner.idExtension = "" ∧
      (game.ID = "12345" →
        FormatUint (((n <<< 32) % 2 ^ 64) ||| 0x02000000) ++ "" ++ game.ImageExt =
          "53021404823552" ++ game.ImageExt) := by
  refine ⟨?_, rfl, ?_⟩
  · rw [writesOf_saveResult]
    simp [h, legacyPath, legacyID, ArtStyle.idExtension, ArtStyle.extensions]
  · intro hid
    rw [hid] at h
    have h' : ParseUint "12345" = some 12345 := by decide
    rw [h'] at h
    have hn : n = 12345 := by injection h with h; exact h.symm
    subst hn
    have : FormatUint (((12345 <<< 32) % 2 ^ 64) ||| 0x02000000) = "53021404823552" := by decide
    rw [this]
    simp

/-- Witness of C1 on the game `12345` with extension `.png`. -/
theorem C1_legacy_banner_name_witness :
    ParseUint (foundGame demoGame "override").ID = some 12345 ∧
    (writesOf (saveResult demoEnv "/g" ArtStyle.Banner ()
        (foundGame demoGame "override")).val).map Prod.fst =
      ["/g/12345.png", "/g/53021404823552.png"] := by
  refine ⟨by decide, ?_⟩
  have h := (C1_legacy_banner_name demoEnv "/g" () (foundGame demoGame "override") 12345
    (by decide)).1
  rw [h]
  decide

/-- C2 (as stated, refuted): in the Banner pass of the game `12345` with an override image and
a failing `BackupGame`, the iteration reaches the persist step, `BackupGame` is called and the
run exits on line 204: no image write is attempted. -/
theorem C2_persist_without_write_counterexample :
    (styleBody backupFailEnv () "" "/g" ⟨0, 0⟩ ArtStyle.Banner (initState demoConfig ())
      demoGame).events =
      [Event.LoadExisting ⟨0, 0⟩ ArtStyle.Banner,
       Event.RemoveExisting ⟨0, 0⟩ ArtStyle.Banner none,
       Event.stdout "Banner found from override\n",
       Event.ApplyOverlay ⟨0, 0⟩ ArtStyle.Banner none,
       Event.BackupGame ⟨0, 0⟩ ArtStyle.Banner (some "read-only file system"),
       Event.stdout "read-only file system\n",
       Event.exit 0] ∧
    writesOf (styleBody backupFailEnv () "" "/g" ⟨0, 0⟩ ArtStyle.Banner
      (initState demoConfig ()) demoGame).events = [] := by
  decide

/-- C2 (amended): when an iteration reaches the persist step (line 176 is reached) and
`BackupGame` returns no error, the writes it attempts are the primary image write to
`<grid>/<ID><id-suffix><ext>` and, exactly when the style is Banner and the identifier parses,
the legacy copy after it; nothing else is written. -/
theorem C2_writes_of_persist {W O : Type} (env : Env W O) (overlays : O)
    (filter gridDir : String) (ref : GameRef) (a : ArtStyle) (s : State W) (game : Game)
    (hfound : (findImage env filter gridDir ref a s game).2 = false)
    (hbackup : (callBackupGame env overlays gridDir a
      (findImage env filter gridDir ref a s game).1.state
      (findImage env filter gridDir ref a s game).1.game).val = none) :
    writesOf (styleBody env overlays filter gridDir ref a s game).events =
      (filepathJoin [gridDir,
          (styleBody env overlays filter gridDir ref a s game).game.ID ++ a.idExtension ++
            (styleBody env overlays filter gridDir ref a s game).game.ImageExt],
        (styleBody env overlays filter gridDir ref a s game).game.OverlayImageBytes) ::
      (if a = ArtStyle.Banner then
        match ParseUint (styleBody env overlays filter gridDir ref a s game).game.ID with
        | some n =>
          [(legacyPath gridDir a (styleBody env overlays filter gridDir ref a s game).game n,
            (styleBody env overlays filter gridDir ref a s game).game.OverlayImageBytes)]
        | none => []
       else []) := by
  rw [styleBody_of_found env overlays filter gridDir ref a s game hfound]
  simp only [writesOf_append, writesOf_findImage, writesOf_overlayAndSave, hbackup,
    List.nil_append, overlayAndSave_game, writesOf_saveResult, imagePath]

/-- Witness of C2: the Banner pass of the game `12345` with an override image. -/
theorem C2_writes_of_persist_witness :
    (findImage overrideEnv "" "/g" ⟨0, 0⟩ ArtStyle.Banner (initState demoConfig ())
      demoGame).2 = false ∧
    writesOf (styleBody overrideEnv () "" "/g" ⟨0, 0⟩ ArtStyle.Banner (initState demoConfig ())
      demoGame).events =
      [("/g/12345.png", some [1, 2, 3]), ("/g/53021404823552.png", some [1, 2, 3])] := by
  refine ⟨by decide, ?_⟩
  rw [C2_writes_of_persist overrideEnv () "" "/g" ⟨0, 0⟩ ArtStyle.Banner
    (initState demoConfig ()) demoGame (by decide) (by decide)]
  decide

theorem findImage_of_existing {W O : Type} (env : Env W O) (filter gridDir : String)
    (ref : GameRef) (a : ArtStyle) (s : State W) (game : Game)
    (h : (callLoadExisting env gridDir a s game).game.ImageSource ≠ "") :
    findImage env filter gridDir ref a s game = (scanExisting env gridDir ref a s game, false) := by
  have h' : (scanExisting env gridDir ref a s game).game.ImageSource ≠ "" := h
  simp [findImage, h']

theorem findImage_of_missing {W O : Type} (env : Env W O) (filter gridDir : String)
    (ref : GameRef) (a : ArtStyle) (s : State W) (game : Game)
    (h : (callLoadExisting env gridDir a s game).game.ImageSource = "") :
    findImage env filter gridDir ref a s game =
      ({ (downloadMissing env filter gridDir ref a (scanExisting env gridDir ref a s game).state
            (scanExisting env gridDir ref a s game).game).1 with
          events := (scanExisting env gridDir ref a s game).events ++
            (downloadMissing env filter gridDir ref a (scanExisting env gridDir ref a s game).state
              (scanExisting env gridDir ref a s game).game).1.events },
       (downloadMissing env filter gridDir ref a (scanExisting env gridDir ref a s game).state
            (scanExisting env gridDir ref a s game).game).2) := by
  have h' : (scanExisting env gridDir ref a s game).game.ImageSource = "" := h
  simp [findImage, h']

/-- What lines 149-175 leave of the variables they do not assign. -/
theorem downloadMissing_frame {W O : Type} (env : Env W O) (filter gridDir : String)
    (ref : GameRef) (a : ArtStyle) (s : State W) (game : Game) :
    (downloadMissing env filter gridDir ref a s game).1.state.nOverlaysApplied =
        s.nOverlaysApplied ∧
    (downloadMissing env filter gridDir ref a s game).1.state.failedGames = s.failedGames ∧
    (downloadMissing env filter gridDir ref a s game).1.state.errorMessages = s.errorMessages ∧
    (downloadMissing env filter gridDir ref a s game).1.state.exited = s.exited := by
  simp only [downloadMissing]
  split
  · split <;> simp
  · split <;> split <;> (try split) <;> (try split) <;> (try split) <;> simp

/-- What lines 131-175 leave of the variables they do not assign. -/
theorem findImage_frame {W O : Type} (env : Env W O) (filter gridDir : String)
    (ref : GameRef) (a : ArtStyle) (s : State W) (game : Game) :
    (findImage env filter gridDir ref a s game).1.state.nOverlaysApplied = s.nOverlaysApplied ∧
    (findImage env filter gridDir ref a s game).1.state.failedGames = s.failedGames ∧
    (findImage env filter gridDir ref a s game).1.state.errorMessages = s.errorMessages ∧
    (findImage env filter gridDir ref a s game).1.state.exited = s.exited := by
  simp only [findImage]
  split
  · exact downloadMissing_frame env filter gridDir ref a _ _
  · simp [scanExisting]

theorem occursBefore_split (p q : Event → Bool) (pre post : List Event) (x : Event)
    (hpre : pre.any p = false) (hx : p x = true) :
    occursBefore p q (pre ++ x :: post) = post.any q := by
  unfold occursBefore
  have h : List.dropWhile (fun e => !p e) (pre ++ x :: post) = x :: post := by
    induction pre with
    | nil => simp [List.dropWhile, hx]
    | cons e l ih =>
      simp only [List.any_cons, Bool.or_eq_false_iff] at hpre
      simp [List.dropWhile, hpre.1, ih hpre.2]
  rw [h]

/-- C3: when `LoadExisting` leaves the image source of the game non-empty, the iteration
makes no call of `DownloadImage`, and leaves the download counter and the not-found,
SteamGridDB, IGDB and search buckets as they were. -/
theorem C3_existing_image_no_download {W O : Type} (env : Env W O) (overlays : O)
    (filter gridDir : String) (ref : GameRef) (a : ArtStyle) (s : State W) (game : Game)
    (h : (callLoadExisting env gridDir a s game).game.ImageSource ≠ "") :
    (∀ e ∈ (styleBody env overlays filter gridDir ref a s game).events, e.isDownload = false) ∧
    (styleBody env overlays filter gridDir ref a s game).state.nDownloaded = s.nDownloaded ∧
    (styleBody env overlays filter gridDir ref a s game).state.notFounds = s.notFounds ∧
    (styleBody env overlays filter gridDir ref a s game).state.steamGridDB = s.steamGridDB ∧
    (styleBody env overlays filter gridDir ref a s game).state.IGDB = s.IGDB ∧
    (styleBody env overlays filter gridDir ref a s game).state.searchedGames =
      s.searchedGames := by
  have hf := findImage_of_existing env filter gridDir ref a s game h
  have hs : styleBody env overlays filter gridDir ref a s game =
      { overlayAndSave env overlays gridDir ref a (scanExisting env gridDir ref a s game).state
          (scanExisting env gridDir ref a s game).game with
        events := (scanExisting env gridDir ref a s game).events ++
          (overlayAndSave env overlays gridDir ref a (scanExisting env gridDir ref a s game).state
            (scanExisting env gridDir ref a s game).game).events } := by
    simp [styleBody, hf]
  rw [hs]
  have hfr := overlayAndSave_frame env overlays gridDir ref a
    (scanExisting env gridDir ref a s game).state (scanExisting env gridDir ref a s game).game
  refine ⟨?_, hfr.2.1, hfr.2.2.1, hfr.2.2.2.1, hfr.2.2.2.2.1, hfr.2.2.2.2.2⟩
  have hany : ((scanExisting env gridDir ref a s game).events ++
      (overlayAndSave env overlays gridDir ref a (scanExisting env gridDir ref a s game).state
        (scanExisting env gridDir ref a s game).game).events).any Event.isDownload = false := by
    rw [List.any_append,
      any_scanExisting env gridDir ref a s game _ (fun _ => rfl) (fun _ _ => rfl)
        (fun _ _ _ => rfl),
      any_overlayAndSave env overlays gridDir ref a _ _ _ (fun _ => rfl) (fun _ => rfl)
        (fun _ => rfl) (fun _ _ _ => rfl) (fun _ _ _ => rfl) (fun _ _ _ => rfl)]
    rfl
  intro e he
  have := List.any_eq_false.mp hany e he
  simpa using this

/-- Witness of C3: the Cover pass of a game with an override image. -/
theorem C3_existing_image_no_download_witness :
    (callLoadExisting overrideEnv "/g" ArtStyle.Cover (initState demoConfig ())
      demoGame).game.ImageSource ≠ "" ∧
    (∀ e ∈ (styleBody overrideEnv () "" "/g" ⟨0, 0⟩ ArtStyle.Cover (initState demoConfig ())
      demoGame).events, e.isDownload = false) ∧
    (styleBody overrideEnv () "" "/g" ⟨0, 0⟩ ArtStyle.Cover (initState demoConfig ())
      demoGame).state.nDownloaded = 0 :=
  ⟨by decide,
   (C3_existing_image_no_download overrideEnv () "" "/g" ⟨0, 0⟩ ArtStyle.Cover
      (initState demoConfig ()) demoGame (by decide)).1,
   (C3_existing_image_no_download overrideEnv () "" "/g" ⟨0, 0⟩ ArtStyle.Cover
      (initState demoConfig ()) demoGame (by decide)).2.1⟩

/-- C5 (as stated, refuted): in the Cover pass of the game `100` with an override image the
call of `ApplyOverlay` comes first and `BackupGame` after it; `BackupGame` does not precede
`ApplyOverlay`. -/
theorem C5_backup_before_overlay_counterexample :
    (findImage overrideEnv "" "/g" ⟨0, 0⟩ ArtStyle.Cover (initState demoConfig ())
      specGame).2 = false ∧
    (styleBody overrideEnv () "" "/g" ⟨0, 0⟩ ArtStyle.Cover (initState demoConfig ())
      specGame).events =
      [Event.LoadExisting ⟨0, 0⟩ ArtStyle.Cover,
       Event.RemoveExisting ⟨0, 0⟩ ArtStyle.Cover none,
       Event.stdout "Cover found from override\n",
       Event.ApplyOverlay ⟨0, 0⟩ ArtStyle.Cover none,
       Event.BackupGame ⟨0, 0⟩ ArtStyle.Cover none,
       Event.WriteFile "/g/100p.png" (some [1, 2, 3]) none] ∧
    ¬ occursBefore Event.isBackupGame Event.isApplyOverlay
      (styleBody overrideEnv () "" "/g" ⟨0, 0⟩ ArtStyle.Cover (initState demoConfig ())
        specGame).events = true := by
  decide

/-- C5 (amended): in every iteration that reaches line 176 with a resolved image,
`ApplyOverlay` is called first and `BackupGame` after it, and no call of `ApplyOverlay`
follows the call of `BackupGame`. -/
theorem C5_overlay_before_backup {W O : Type} (env : Env W O) (overlays : O)
    (filter gridDir : String) (ref : GameRef) (a : ArtStyle) (s : State W) (game : Game)
    (hfound : (findImage env filter gridDir ref a s game).2 = false) :
    occursBefore Event.isApplyOverlay Event.isBackupGame
        (styleBody env overlays filter gridDir ref a s game).events = true ∧
    occursBefore Event.isBackupGame Event.isApplyOverlay
        (styleBody env overlays filter gridDir ref a s game).events = false := by
  rw [styleBody_of_found env overlays filter gridDir ref a s game hfound]
  simp only [overlayAndSave_events]
  have hpre1 : (findImage env filter gridDir ref a s game).1.events.any Event.isApplyOverlay
      = false :=
    any_findImage env filter gridDir ref a s game _ (fun _ => rfl) (fun _ _ => rfl)
      (fun _ _ _ => rfl) (fun _ _ _ _ _ => rfl)
  have hpre2 : (findImage env filter gridDir ref a s game).1.events.any Event.isBackupGame
      = false :=
    any_findImage env filter gridDir ref a s game _ (fun _ => rfl) (fun _ _ => rfl)
      (fun _ _ _ => rfl) (fun _ _ _ _ _ => rfl)
  constructor
  · have := occursBefore_split Event.isApplyOverlay Event.isBackupGame
      ((findImage env filter gridDir ref a s game).1.events ++
        [Event.stdout (a.name ++ " found from " ++
          (findImage env filter gridDir ref a s game).1.game.ImageSource ++ "\n")])
      ((match (callApplyOverlay env overlays a (findImage env filter gridDir ref a s game).1.state
          (findImage env filter gridDir ref a s game).1.game).val with
        | some m => [Event.stderr (m ++ "\n")]
        | none => []) ++
        [Event.BackupGame ref a (callBackupGame env overlays gridDir a
          (findImage env filter gridDir ref a s game).1.state
          (findImage env filter gridDir ref a s game).1.game).val] ++
        (match (callBackupGame env overlays gridDir a
            (findImage env filter gridDir ref a s game).1.state
            (findImage env filter gridDir ref a s game).1.game).val with
         | some m => [Event.stdout (m ++ "\n"), Event.exit 0]
         | none =>
           (saveResult env gridDir a (callBackupGame env overlays gridDir a
              (findImage env filter gridDir ref a s game).1.state
              (findImage env filter gridDir ref a s game).1.game).world
             (overlaidGame env overlays a
              (findImage env filter gridDir ref a s game).1.state
              (findImage env filter gridDir ref a s game).1.game)).val))
      (Event.ApplyOverlay ref a (callApplyOverlay env overlays a
          (findImage env filter gridDir ref a s game).1.state
          (findImage env filter gridDir ref a s game).1.game).val)
      (by simp [hpre1, Event.isApplyOverlay]) rfl
    simp only [List.append_assoc, List.cons_append, List.nil_append, List.singleton_append]
      at this ⊢
    rw [this]
    simp [Event.isBackupGame]
  · have := occursBefore_split Event.isBackupGame Event.isApplyOverlay
      ((findImage env filter gridDir ref a s game).1.events ++
        [Event.stdout (a.name ++ " found from " ++
          (findImage env filter gridDir ref a s game).1.game.ImageSource ++ "\n"),
         Event.ApplyOverlay ref a (callApplyOverlay env overlays a
          (findImage env filter gridDir ref a s game).1.state
          (findImage env filter gridDir ref a s game).1.game).val] ++
        (match (callApplyOverlay env overlays a (findImage env filter gridDir ref a s game).1.state
          (findImage env filter gridDir ref a s game).1.game).val with
        | some m => [Event.stderr (m ++ "\n")]
        | none => []))
      (match (callBackupGame env overlays gridDir a
            (findImage env filter gridDir ref a s game).1.state
            (findImage env filter gridDir ref a s game).1.game).val with
         | some m => [Event.stdout (m ++ "\n"), Event.exit 0]
         | none =>
           (saveResult env gridDir a (callBackupGame env overlays gridDir a
              (findImage env filter gridDir ref a s game).1.state
              (findImage env filter gridDir ref a s game).1.game).world
             (overlaidGame env overlays a
              (findImage env filter gridDir ref a s game).1.state
              (findImage env filter gridDir ref a s game).1.game)).val)
      (Event.BackupGame ref a (callBackupGame env overlays gridDir a
          (findImage env filter gridDir ref a s game).1.state
          (findImage env filter gridDir ref a s game).1.game).val)
      (by
        cases (callApplyOverlay env overlays a (findImage env filter gridDir ref a s game).1.state
          (findImage env filter gridDir ref a s game).1.game).val <;>
          simp [hpre2, Event.isBackupGame]) rfl
    simp only [List.append_assoc, List.cons_append, List.nil_append, List.singleton_append]
      at this ⊢
    rw [this]
    cases (callBackupGame env overlays gridDir a
            (findImage env filter gridDir ref a s game).1.state
            (findImage env filter gridDir ref a s game).1.game).val with
    | some m => simp [Event.isApplyOverlay]
    | none =>
      exact any_saveResult env gridDir a _ _ _ (fun _ => rfl) (fun _ _ _ => rfl)

/-- Witness of C5 (amended): the Cover pass of the game `100` with an override image. -/
theorem C5_overlay_before_backup_witness :
    (findImage overrideEnv "" "/g" ⟨0, 0⟩ ArtStyle.Cover (initState demoConfig ())
      specGame).2 = false ∧
    occursBefore Event.isApplyOverlay Event.isBackupGame
      (styleBody overrideEnv () "" "/g" ⟨0, 0⟩ ArtStyle.Cover (initState demoConfig ())
        specGame).events = true :=
  ⟨by decide,
   (C5_overlay_before_backup overrideEnv () "" "/g" ⟨0, 0⟩ ArtStyle.Cover
      (initState demoConfig ()) specGame (by decide)).1⟩

/-- C7 (as stated, refuted): in the Banner pass of the game `12345` the primary write fails,
the legacy copy succeeds, and the line of line 219 is printed all the same. -/
theorem C7_masked_write_error_counterexample :
    (styleBody primaryFailEnv () "" "/g" ⟨0, 0⟩ ArtStyle.Banner (initState demoConfig ())
      demoGame).events =
      [Event.LoadExisting ⟨0, 0⟩ ArtStyle.Banner,
       Event.RemoveExisting ⟨0, 0⟩ ArtStyle.Banner none,
       Event.stdout "Banner found from override\n",
       Event.ApplyOverlay ⟨0, 0⟩ ArtStyle.Banner none,
       Event.BackupGame ⟨0, 0⟩ ArtStyle.Banner none,
       Event.WriteFile "/g/12345.png" (some [1, 2, 3]) (some "disk full"),
       Event.WriteFile "/g/53021404823552.png" (some [1, 2, 3]) none,
       Event.stdout "Failed to write image for Test Game (Banner) because: disk full\n"] := by
  decide

/-- C7 (amended): in the persist step the error of the primary image write (line 208) is not
overwritten by the legacy copy: whenever the primary write fails, the line of line 219 is
printed with the error of that write, whether the legacy copy is attempted or not and
whether it succeeds or fails; and when the primary write and every write of the legacy copy
succeed, nothing is printed. -/
theorem C7_primary_failure_reported {W O : Type} (env : Env W O) (gridDir : String)
    (a : ArtStyle) (w : W) (game : Game) :
    (∀ m, (callWriteImage env gridDir a w game).val = some m →
      stdoutOf (saveResult env gridDir a w game).val = [failedWriteLine a game m]) ∧
    ((callWriteImage env gridDir a w game).val = none →
      (∀ p d e, Event.WriteFile p d e ∈ (legacyCopy env gridDir a
        (callWriteImage env gridDir a w game).world game).val → e = none) →
      stdoutOf (saveResult env gridDir a w game).val = []) := by
  constructor
  · intro m hm
    simp only [saveResult, legacyCopy, stdoutOf_append, hm]
    split <;> (try split) <;> simp [stdoutOf]
  · intro hm _
    simp only [saveResult, legacyCopy, stdoutOf_append, hm]
    split <;> (try split) <;> simp [stdoutOf]

/-- Witness of C7 (amended): the Banner pass of the game `12345`, whose primary write fails
and whose legacy copy succeeds. -/
theorem C7_primary_failure_reported_witness :
    (callWriteImage primaryFailEnv "/g" ArtStyle.Banner ()
      (fallbackToClean (foundGame demoGame "override"))).val = some "disk full" ∧
    (legacyCopy primaryFailEnv "/g" ArtStyle.Banner ()
      (fallbackToClean (foundGame demoGame "override"))).val =
      [Event.WriteFile "/g/53021404823552.png" (some [1, 2, 3]) none] ∧
    stdoutOf (saveResult primaryFailEnv "/g" ArtStyle.Banner ()
      (fallbackToClean (foundGame demoGame "override"))).val =
      [failedWriteLine ArtStyle.Banner (fallbackToClean (foundGame demoGame "override"))
        "disk full"] :=
  ⟨by decide, by decide,
   (C7_primary_failure_reported primaryFailEnv "/g" ArtStyle.Banner ()
      (fallbackToClean (foundGame demoGame "override"))).1 "disk full" (by decide)⟩

theorem fallbackToClean_overlay (g : Game) (h : g.OverlayImageBytes = none) :
    (fallbackToClean g).OverlayImageBytes = g.CleanImageBytes := by
  simp [fallbackToClean, h]

/-- C8: when an iteration reaches the compositing step and `ApplyOverlay` leaves the overlay
bytes of the game unset, every image write of the iteration carries exactly the clean image
bytes (and the primary write is made once `BackupGame` returns no error), the
overlays-applied counter keeps its value, and the game is appended to the failed-to-overlay
bucket of the style exactly when `ApplyOverlay` returned an error. -/
theorem C8_no_overlay_writes_clean_bytes {W O : Type} (env : Env W O) (overlays : O)
    (filter gridDir : String) (ref : GameRef) (a : ArtStyle) (s : State W) (game : Game)
    (hfound : (findImage env filter gridDir ref a s game).2 = false)
    (hunset : (iterationOverlay env overlays filter gridDir ref a s game).game.OverlayImageBytes
      = none) :
    (∀ x ∈ writesOf (styleBody env overlays filter gridDir ref a s game).events,
      x.2 = (iterationOverlay env overlays filter gridDir ref a s game).game.CleanImageBytes) ∧
    ((iterationBackup env overlays filter gridDir ref a s game).val = none →
      (imagePath gridDir a (styleBody env overlays filter gridDir ref a s game).game,
        (iterationOverlay env overlays filter gridDir ref a s game).game.CleanImageBytes) ∈
        writesOf (styleBody env overlays filter gridDir ref a s game).events) ∧
    (styleBody env overlays filter gridDir ref a s game).state.nOverlaysApplied =
      s.nOverlaysApplied ∧
    (∀ m, (iterationOverlay env overlays filter gridDir ref a s game).val = some m →
      (styleBody env overlays filter gridDir ref a s game).state.failedGames =
        s.failedGames.push a ref) ∧
    ((iterationOverlay env overlays filter gridDir ref a s game).val = none →
      (styleBody env overlays filter gridDir ref a s game).state.failedGames =
        s.failedGames) := by
  have hfr := findImage_frame env filter gridDir ref a s game
  have hg : (overlaidGame env overlays a
      (findImage env filter gridDir ref a s game).1.state
      (findImage env filter gridDir ref a s game).1.game).OverlayImageBytes =
      (iterationOverlay env overlays filter gridDir ref a s game).game.CleanImageBytes :=
    fallbackToClean_overlay _ hunset
  rw [styleBody_of_found env overlays filter gridDir ref a s game hfound]
  simp only [writesOf_append, writesOf_findImage, writesOf_overlayAndSave, List.nil_append,
    overlayAndSave_game, iterationBackup]
  refine ⟨?_, ?_, ?_, ?_, ?_⟩
  · intro x hx
    cases hb : (callBackupGame env overlays gridDir a
        (findImage env filter gridDir ref a s game).1.state
        (findImage env filter gridDir ref a s game).1.game).val with
    | some m => simp [hb] at hx
    | none =>
      simp only [hb, writesOf_saveResult] at hx
      rw [hg] at hx
      rcases List.mem_cons.mp hx with h1 | h1
      · rw [h1]
      · split at h1
        · split at h1
          · rw [List.mem_singleton.mp h1]
          · cases h1
        · cases h1
  · intro hb
    simp only [hb, writesOf_saveResult]
    rw [hg]
    exact List.mem_cons_self _ _
  · have hu : (callApplyOverlay env overlays a
        (findImage env filter gridDir ref a s game).1.state
        (findImage env filter gridDir ref a s game).1.game).game.OverlayImageBytes = none :=
      hunset
    simp only [overlayAndSave, errorAndExit, hu]
    cases (callBackupGame env overlays gridDir a
        (findImage env filter gridDir ref a s game).1.state
        (findImage env filter gridDir ref a s game).1.game).val <;>
      cases (callApplyOverlay env overlays a
        (findImage env filter gridDir ref a s game).1.state
        (findImage env filter gridDir ref a s game).1.game).val <;>
      simp [hfr.1]
  · intro m hm
    have hm' : (callApplyOverlay env overlays a
        (findImage env filter gridDir ref a s game).1.state
        (findImage env filter gridDir ref a s game).1.game).val = some m := hm
    simp only [overlayAndSave, errorAndExit, hm']
    cases (callBackupGame env overlays gridDir a
        (findImage env filter gridDir ref a s game).1.state
        (findImage env filter gridDir ref a s game).1.game).val <;>
      by_cases hc : (callApplyOverlay env overlays a
        (findImage env filter gridDir ref a s game).1.state
        (findImage env filter gridDir ref a s game).1.game).game.OverlayImageBytes = none <;>
      simp [hc, hfr.2.1]
  · intro hm
    have hm' : (callApplyOverlay env overlays a
        (findImage env filter gridDir ref a s game).1.state
        (findImage env filter gridDir ref a s game).1.game).val = none := hm
    simp only [overlayAndSave, errorAndExit, hm']
    cases (callBackupGame env overlays gridDir a
        (findImage env filter gridDir ref a s game).1.state
        (findImage env filter gridDir ref a s game).1.game).val <;>
      by_cases hc : (callApplyOverlay env overlays a
        (findImage env filter gridDir ref a s game).1.state
        (findImage env filter gridDir ref a s game).1.game).game.OverlayImageBytes = none <;>
      simp [hc, hfr.2.1]

/-- Witness of C8: the Banner pass of the game `12345` with an override image and a failing
`ApplyOverlay`. -/
theorem C8_no_overlay_writes_clean_bytes_witness :
    (findImage overlayFailEnv "" "/g" ⟨0, 0⟩ ArtStyle.Banner (initState demoConfig ())
      demoGame).2 = false ∧
    (iterationOverlay overlayFailEnv () "" "/g" ⟨0, 0⟩ ArtStyle.Banner (initState demoConfig ())
      demoGame).game.OverlayImageBytes = none ∧
    (iterationOverlay overlayFailEnv () "" "/g" ⟨0, 0⟩ ArtStyle.Banner (initState demoConfig ())
      demoGame).game.CleanImageBytes = some [1, 2, 3] ∧
    (∀ x ∈ writesOf (styleBody overlayFailEnv () "" "/g" ⟨0, 0⟩ ArtStyle.Banner
        (initState demoConfig ()) demoGame).events,
      x.2 = (iterationOverlay overlayFailEnv () "" "/g" ⟨0, 0⟩ ArtStyle.Banner
        (initState demoConfig ()) demoGame).game.CleanImageBytes) ∧
    (styleBody overlayFailEnv () "" "/g" ⟨0, 0⟩ ArtStyle.Banner (initState demoConfig ())
      demoGame).state.failedGames = Buckets.empty.push ArtStyle.Banner ⟨0, 0⟩ :=
  ⟨by decide, by decide, by decide,
   (C8_no_overlay_writes_clean_bytes overlayFailEnv () "" "/g" ⟨0, 0⟩ ArtStyle.Banner
      (initState demoConfig ()) demoGame (by decide) (by decide)).1,
   (C8_no_overlay_writes_clean_bytes overlayFailEnv () "" "/g" ⟨0, 0⟩ ArtStyle.Banner
      (initState demoConfig ()) demoGame (by decide) (by decide)).2.2.2.1
      "image: unknown format" (by decide)⟩

/-- C9 (as stated, refuted): in the Banner pass of the game `12345`, with no override and no
backup, `DownloadImage` resolves an image with origin `SteamGridDB` and returns an error next
to it; the game enters the SteamGridDB bucket, and the download counter keeps its value. -/
theorem C9_download_counter_counterexample :
    (callLoadExisting steamGridErrEnv "/g" ArtStyle.Banner (initState demoConfig ())
      demoGame).game.ImageSource = "" ∧
    (iterationDownload steamGridErrEnv "" "/g" ⟨0, 0⟩ ArtStyle.Banner (initState demoConfig ())
      demoGame).game.ImageSource = "SteamGridDB" ∧
    (iterationDownload steamGridErrEnv "" "/g" ⟨0, 0⟩ ArtStyle.Banner (initState demoConfig ())
      demoGame).val = ("SteamGridDB", some "low resolution only") ∧
    (styleBody steamGridErrEnv () "" "/g" ⟨0, 0⟩ ArtStyle.Banner (initState demoConfig ())
      demoGame).state.steamGridDB ArtStyle.Banner = [⟨0, 0⟩] ∧
    (styleBody steamGridErrEnv () "" "/g" ⟨0, 0⟩ ArtStyle.Banner (initState demoConfig ())
      demoGame).state.nDownloaded = 0 ∧
    (initState demoConfig ()).nDownloaded = 0 := by
  decide

theorem downloadMissing_found_state {W O : Type} (env : Env W O) (filter gridDir : String)
    (ref : GameRef) (a : ArtStyle) (s : State W) (game : Game)
    (h1 : (callDownloadImage env filter gridDir a s game).game.ImageSource ≠ "")
    (h2 : (callDownloadImage env filter gridDir a s game).val.2 = none) :
    (downloadMissing env filter gridDir ref a s game).2 = false ∧
    (downloadMissing env filter gridDir ref a s game).1.state.nDownloaded = s.nDownloaded + 1 ∧
    (downloadMissing env filter gridDir ref a s game).1.state.notFounds = s.notFounds ∧
    (downloadMissing env filter gridDir ref a s game).1.state.steamGridDB =
      (if (callDownloadImage env filter gridDir a s game).val.1 = "SteamGridDB" then
        s.steamGridDB.push a ref else s.steamGridDB) ∧
    (downloadMissing env filter gridDir ref a s game).1.state.IGDB =
      (if (callDownloadImage env filter gridDir a s game).val.1 = "IGDB" then
        s.IGDB.push a ref else s.IGDB) ∧
    (downloadMissing env filter gridDir ref a s game).1.state.searchedGames =
      (if (callDownloadImage env filter gridDir a s game).val.1 = "search" then
        s.searchedGames.push a ref else s.searchedGames) := by
  simp only [downloadMissing, h1, h2, if_false, if_true]
  by_cases c1 : (callDownloadImage env filter gridDir a s game).val.1 = "IGDB"
  · simp [c1]
  · by_cases c2 : (callDownloadImage env filter gridDir a s game).val.1 = "SteamGridDB"
    · simp [c1, c2]
    · by_cases c3 : (callDownloadImage env filter gridDir a s game).val.1 = "search"
      · simp [c1, c2, c3]
      · simp [c1, c2, c3]

/-- C9 (amended): when no override or backup exists and `DownloadImage` resolves an image
with origin tag `SteamGridDB`, `IGDB` or `search` and returns no error, the game is appended
once to the bucket of that tag under the style, the two other source buckets and the
not-found bucket keep their content, and the download counter grows by exactly one. -/
theorem C9_download_recorded_once {W O : Type} (env : Env W O) (overlays : O)
    (filter gridDir : String) (ref : GameRef) (a : ArtStyle) (s : State W) (game : Game)
    (hscan : (callLoadExisting env gridDir a s game).game.ImageSource = "")
    (hres : (iterationDownload env filter gridDir ref a s game).game.ImageSource ≠ "")
    (herr : (iterationDownload env filter gridDir ref a s game).val.2 = none) :
    (styleBody env overlays filter gridDir ref a s game).state.nDownloaded = s.nDownloaded + 1 ∧
    (styleBody env overlays filter gridDir ref a s game).state.notFounds = s.notFounds ∧
    ((iterationDownload env filter gridDir ref a s game).val.1 = "SteamGridDB" →
      (styleBody env overlays filter gridDir ref a s game).state.steamGridDB =
        s.steamGridDB.push a ref ∧
      (styleBody env overlays filter gridDir ref a s game).state.IGDB = s.IGDB ∧
      (styleBody env overlays filter gridDir ref a s game).state.searchedGames =
        s.searchedGames) ∧
    ((iterationDownload env filter gridDir ref a s game).val.1 = "IGDB" →
      (styleBody env overlays filter gridDir ref a s game).state.IGDB = s.IGDB.push a ref ∧
      (styleBody env overlays filter gridDir ref a s game).state.steamGridDB = s.steamGridDB ∧
      (styleBody env overlays filter gridDir ref a s game).state.searchedGames =
        s.searchedGames) ∧
    ((iterationDownload env filter gridDir ref a s game).val.1 = "search" →
      (styleBody env overlays filter gridDir ref a s game).state.searchedGames =
        s.searchedGames.push a ref ∧
      (styleBody env overlays filter gridDir ref a s game).state.steamGridDB = s.steamGridDB ∧
      (styleBody env overlays filter gridDir ref a s game).state.IGDB = s.IGDB) ∧
    (s.steamGridDB.push a ref a = s.steamGridDB a ++ [ref] ∧
      s.IGDB.push a ref a = s.IGDB a ++ [ref] ∧
      s.searchedGames.push a ref a = s.searchedGames a ++ [ref]) := by
  have hd := downloadMissing_found_state env filter gridDir ref a
    (scanExisting env gridDir ref a s game).state (scanExisting env gridDir ref a s game).game
    hres herr
  have hf := findImage_of_missing env filter gridDir ref a s game hscan
  have hfound : (findImage env filter gridDir ref a s game).2 = false := by
    rw [hf]; exact hd.1
  rw [styleBody_of_found env overlays filter gridDir ref a s game hfound]
  have hfr := overlayAndSave_frame env overlays gridDir ref a
    (findImage env filter gridDir ref a s game).1.state
    (findImage env filter gridDir ref a s game).1.game
  have hst : (findImage env filter gridDir ref a s game).1.state =
      (downloadMissing env filter gridDir ref a (scanExisting env gridDir ref a s game).state
        (scanExisting env gridDir ref a s game).game).1.state := by
    rw [hf]
  have e1 : (overlayAndSave env overlays gridDir ref a
      (findImage env filter gridDir ref a s game).1.state
      (findImage env filter gridDir ref a s game).1.game).state.nDownloaded =
      s.nDownloaded + 1 := by
    rw [hfr.2.1, hst, hd.2.1]; rfl
  have e2 : (overlayAndSave env overlays gridDir ref a
      (findImage env filter gridDir ref a s game).1.state
      (findImage env filter gridDir ref a s game).1.game).state.notFounds = s.notFounds := by
    rw [hfr.2.2.1, hst, hd.2.2.1]; rfl
  have e3 : (overlayAndSave env overlays gridDir ref a
      (findImage env filter gridDir ref a s game).1.state
      (findImage env filter gridDir ref a s game).1.game).state.steamGridDB =
      (if (iterationDownload env filter gridDir ref a s game).val.1 = "SteamGridDB" then
        s.steamGridDB.push a ref else s.steamGridDB) := by
    rw [hfr.2.2.2.1, hst, hd.2.2.2.1]; rfl
  have e4 : (overlayAndSave env overlays gridDir ref a
      (findImage env filter gridDir ref a s game).1.state
      (findImage env filter gridDir ref a s game).1.game).state.IGDB =
      (if (iterationDownload env filter gridDir ref a s game).val.1 = "IGDB" then
        s.IGDB.push a ref else s.IGDB) := by
    rw [hfr.2.2.2.2.1, hst, hd.2.2.2.2.1]; rfl
  have e5 : (overlayAndSave env overlays gridDir ref a
      (findImage env filter gridDir ref a s game).1.state
      (findImage env filter gridDir ref a s game).1.game).state.searchedGames =
      (if (iterationDownload env filter gridDir ref a s game).val.1 = "search" then
        s.searchedGames.push a ref else s.searchedGames) := by
    rw [hfr.2.2.2.2.2, hst, hd.2.2.2.2.2]; rfl
  refine ⟨e1, e2, ?_, ?_, ?_, ?_⟩
  · intro h; simp [e3, e4, e5, h]
  · intro h; simp [e3, e4, e5, h]
  · intro h; simp [e3, e4, e5, h]
  · simp [Buckets.push]

/-- Witness of C9 (amended): the Banner pass of the game `12345`, delivered by SteamGridDB. -/
theorem C9_download_recorded_once_witness :
    (callLoadExisting steamGridEnv "/g" ArtStyle.Banner (initState demoConfig ())
      demoGame).game.ImageSource = "" ∧
    (iterationDownload steamGridEnv "" "/g" ⟨0, 0⟩ ArtStyle.Banner (initState demoConfig ())
      demoGame).val = ("SteamGridDB", none) ∧
    (styleBody steamGridEnv () "" "/g" ⟨0, 0⟩ ArtStyle.Banner (initState demoConfig ())
      demoGame).state.nDownloaded = (initState demoConfig ()).nDownloaded + 1 ∧
    (styleBody steamGridEnv () "" "/g" ⟨0, 0⟩ ArtStyle.Banner (initState demoConfig ())
      demoGame).state.steamGridDB =
      (initState demoConfig ()).steamGridDB.push ArtStyle.Banner ⟨0, 0⟩ :=
  ⟨by decide, by decide,
   (C9_download_recorded_once steamGridEnv () "" "/g" ⟨0, 0⟩ ArtStyle.Banner
      (initState demoConfig ()) demoGame (by decide) (by decide) (by decide)).1,
   ((C9_download_recorded_once steamGridEnv () "" "/g" ⟨0, 0⟩ ArtStyle.Banner
      (initState demoConfig ()) demoGame (by decide) (by decide) (by decide)).2.2.1
      (by decide)).1⟩

/-! ## The SteamGridDB API key over a whole run -/

theorem clearKey_clearKey (c : Config) : clearKey (clearKey c) = clearKey c := rfl

theorem isAuthFailure_isDownload {e : Event} (h : e.isAuthFailure = true) :
    e.isDownload = true := by
  cases e <;> simp_all [Event.isAuthFailure, Event.isDownload]

theorem downloadKey_isDownload {e : Event} {k : String} (h : e.downloadKey = some k) :
    e.isDownload = true := by
  cases e <;> simp_all [Event.downloadKey, Event.isDownload]

theorem keyOK_nil (c : Config) : KeyOK c c [] :=
  { pairwise := List.Pairwise.nil
    keys := by intro e he; cases he
    cleared := by rintro ⟨e, he, _⟩; cases he
    kept := fun _ => rfl }

theorem keyOK_plain (c : Config) (tr : List Event) (h : tr.any Event.isDownload = false) :
    KeyOK c c tr := by
  have hno : ∀ e ∈ tr, e.isDownload = false := by
    intro e he
    have := List.any_eq_false.mp h e he
    simpa using this
  refine ⟨?_, ?_, ?_, fun _ => rfl⟩
  · refine List.pairwise_of_forall_mem_list ?_
    intro a ha b _ hauth
    have := isAuthFailure_isDownload hauth
    rw [hno a ha] at this
    cases this
  · intro e he k hk
    have := downloadKey_isDownload hk
    rw [hno e he] at this
    cases this
  · rintro ⟨e, he, hauth⟩
    have := isAuthFailure_isDownload hauth
    rw [hno e he] at this
    cases this

theorem keyOK_config_cases {c₀ c₁ : Config} {tr : List Event} (h : KeyOK c₀ c₁ tr) :
    c₁ = c₀ ∨ c₁ = clearKey c₀ := by
  by_cases hex : ∃ e ∈ tr, e.isAuthFailure = true
  · exact Or.inr (h.cleared hex)
  · exact Or.inl (h.kept hex)

theorem keyOK_append {c₀ c₁ c₂ : Config} {t₁ t₂ : List Event} (h₁ : KeyOK c₀ c₁ t₁)
    (h₂ : KeyOK c₁ c₂ t₂) : KeyOK c₀ c₂ (t₁ ++ t₂) := by
  refine ⟨?_, ?_, ?_, ?_⟩
  · rw [List.pairwise_append]
    refine ⟨h₁.pairwise, h₂.pairwise, ?_⟩
    intro a ha b hb hauth k hk
    have hc : c₁ = clearKey c₀ := h₁.cleared ⟨a, ha, hauth⟩
    rcases h₂.keys b hb k hk with h | h
    · rw [h, hc]; rfl
    · exact h
  · intro e he k hk
    rcases List.mem_append.mp he with h | h
    · exact h₁.keys e h k hk
    · rcases h₂.keys e h k hk with h' | h'
      · rcases keyOK_config_cases h₁ with hc | hc
        · left; rw [h', hc]
        · right; rw [h', hc]; rfl
      · exact Or.inr h'
  · rintro ⟨e, he, hauth⟩
    rcases List.mem_append.mp he with h | h
    · have hc : c₁ = clearKey c₀ := h₁.cleared ⟨e, h, hauth⟩
      rcases keyOK_config_cases h₂ with hc2 | hc2
      · rw [hc2, hc]
      · rw [hc2, hc, clearKey_clearKey]
    · have hc2 : c₂ = clearKey c₁ := h₂.cleared ⟨e, h, hauth⟩
      rcases keyOK_config_cases h₁ with hc | hc
      · rw [hc2, hc]
      · rw [hc2, hc, clearKey_clearKey]
  · intro hno
    have h1 : ¬ ∃ e ∈ t₁, e.isAuthFailure = true := by
      rintro ⟨e, he, hauth⟩
      exact hno ⟨e, List.mem_append_left _ he, hauth⟩
    have h2 : ¬ ∃ e ∈ t₂, e.isAuthFailure = true := by
      rintro ⟨e, he, hauth⟩
      exact hno ⟨e, List.mem_append_right _ he, hauth⟩
    rw [h₂.kept h2, h₁.kept h1]

theorem keyOK_download (c : Config) (r : GameRef) (a : ArtStyle) (origin : String)
    (err : GoError) :
    KeyOK c (if err = some authErrorText then clearKey c else c)
      [Event.DownloadImage r a c.SteamGridDBAPIKey origin err] := by
  refine ⟨List.pairwise_singleton _ _, ?_, ?_, ?_⟩
  · intro e he k hk
    rw [List.mem_singleton.mp he] at hk
    simp only [Event.downloadKey, Option.some.injEq] at hk
    exact Or.inl hk.symm
  · rintro ⟨e, he, hauth⟩
    rw [List.mem_singleton.mp he] at hauth
    simp only [Event.isAuthFailure, decide_eq_true_eq] at hauth
    simp [hauth]
  · intro hno
    have : ¬ err = some authErrorText := by
      intro h
      exact hno ⟨_, List.mem_singleton_self _, by simp [Event.isAuthFailure, h]⟩
    simp [this]

theorem downloadMissing_config {W O : Type} (env : Env W O) (filter gridDir : String)
    (ref : GameRef) (a : ArtStyle) (s : State W) (game : Game) :
    (downloadMissing env filter gridDir ref a s game).1.state.config =
      if (callDownloadImage env filter gridDir a s game).val.2 = some authErrorText then
        clearKey s.config else s.config := by
  simp only [downloadMissing]
  split
  · split <;> simp_all [clearKey]
  · split <;> split <;> (try split) <;> (try split) <;> (try split) <;> simp_all [clearKey]

theorem downloadMissing_keyOK {W O : Type} (env : Env W O) (filter gridDir : String)
    (ref : GameRef) (a : ArtStyle) (s : State W) (game : Game) :
    KeyOK s.config (downloadMissing env filter gridDir ref a s game).1.state.config
      (downloadMissing env filter gridDir ref a s game).1.events := by
  rw [downloadMissing_events, downloadMissing_config, List.append_assoc]
  refine keyOK_append (keyOK_download _ _ _ _ _) (keyOK_plain _ _ ?_)
  rw [List.any_append, any_printlnErr _ (fun _ => rfl)]
  split <;> rfl

theorem findImage_keyOK {W O : Type} (env : Env W O) (filter gridDir : String)
    (ref : GameRef) (a : ArtStyle) (s : State W) (game : Game) :
    KeyOK s.config (findImage env filter gridDir ref a s game).1.state.config
      (findImage env filter gridDir ref a s game).1.events := by
  have hsc : KeyOK s.config (scanExisting env gridDir ref a s game).state.config
      (scanExisting env gridDir ref a s game).events :=
    keyOK_plain _ _ (any_scanExisting env gridDir ref a s game _ (fun _ => rfl)
      (fun _ _ => rfl) (fun _ _ _ => rfl))
  simp only [findImage]
  split
  · exact keyOK_append hsc (downloadMissing_keyOK env filter gridDir ref a _ _)
  · exact hsc

theorem styleBody_keyOK {W O : Type} (env : Env W O) (overlays : O) (filter gridDir : String)
    (ref : GameRef) (a : ArtStyle) (s : State W) (game : Game) :
    KeyOK s.config (styleBody env overlays filter gridDir ref a s game).state.config
      (styleBody env overlays filter gridDir ref a s game).events := by
  have hf := findImage_keyOK env filter gridDir ref a s game
  cases hb : (findImage env filter gridDir ref a s game).2 with
  | true =>
    rw [styleBody_of_skip env overlays filter gridDir ref a s game hb]
    exact hf
  | false =>
    rw [styleBody_of_found env overlays filter gridDir ref a s game hb]
    refine keyOK_append hf ?_
    have hfr := overlayAndSave_frame env overlays gridDir ref a
      (findImage env filter gridDir ref a s game).1.state
      (findImage env filter gridDir ref a s game).1.game
    show KeyOK _ (overlayAndSave env overlays gridDir ref a _ _).state.config _
    rw [hfr.1]
    exact keyOK_plain _ _ (any_overlayAndSave env overlays gridDir ref a _ _ _ (fun _ => rfl)
      (fun _ => rfl) (fun _ => rfl) (fun _ _ _ => rfl) (fun _ _ _ => rfl) (fun _ _ _ => rfl))

theorem stylesLoop_keyOK {W O : Type} (env : Env W O) (overlays : O) (filter gridDir : String)
    (ref : GameRef) (l : List ArtStyle) (s : State W) (game : Game) :
    KeyOK s.config (stylesLoop env overlays filter gridDir ref l s game).state.config
      (stylesLoop env overlays filter gridDir ref l s game).events := by
  induction l generalizing s game with
  | nil => exact keyOK_nil _
  | cons a rest ih =>
    simp only [stylesLoop]
    split
    · exact keyOK_nil _
    · exact keyOK_append (styleBody_keyOK env overlays filter gridDir ref a s game) (ih _ _)

theorem gameBody_keyOK {W O : Type} (env : Env W O) (overlays : O) (filter gridDir : String)
    (user total i : Nat) (s : State W) (game : Game) :
    KeyOK s.config (gameBody env overlays filter gridDir user total i s game).state.config
      (gameBody env overlays filter gridDir user total i s game).trace := by
  simp only [gameBody]
  refine keyOK_append (keyOK_plain s.config _ ?_) ?_
  · split <;> rfl
  · have h := stylesLoop_keyOK env overlays filter gridDir ⟨user, i - 1⟩
      (env.styleOrder user (i - 1)).val
      (if game.Name = "" then { s with world := (env.GetGameName s.world game.ID).world } else s)
      (if game.Name = "" then { game with Name := (env.GetGameName s.world game.ID).val }
        else game)
    have hc : (if game.Name = "" then
        { s with world := (env.GetGameName s.world game.ID).world } else s).config = s.config := by
      split <;> rfl
    rw [hc] at h
    exact h

theorem gamesLoop_keyOK {W O : Type} (env : Env W O) (overlays : O) (filter gridDir : String)
    (user total i : Nat) (l : List Game) (s : State W) :
    KeyOK s.config (gamesLoop env overlays filter gridDir user total i l s).state.config
      (gamesLoop env overlays filter gridDir user total i l s).trace := by
  induction l generalizing s i with
  | nil => exact keyOK_nil _
  | cons g rest ih =>
    simp only [gamesLoop]
    split
    · exact keyOK_nil _
    · exact keyOK_append (gameBody_keyOK env overlays filter gridDir user total (i + 1) s g)
        (ih _ _)

theorem userBody_keyOK {W O : Type} (env : Env W O) (overlays : O) (filter : String)
    (u : Nat) (user : User) (s : State W) :
    KeyOK s.config (userBody env overlays filter u user s).state.config
      (userBody env overlays filter u user s).trace := by
  simp only [userBody]
  split
  · exact keyOK_plain _ _ rfl
  · rw [List.append_assoc]
    refine keyOK_append (keyOK_plain s.config _ rfl) ?_
    refine keyOK_append (keyOK_plain s.config _ rfl) ?_
    exact gamesLoop_keyOK env overlays filter (gridDirOf user) u
      (env.GetGames (env.MkdirAll s.world (filepathJoin [gridDirOf user, "originals"])).world user
        s.config.OnlyNonSteamGames).val.length 0
      (env.GetGames (env.MkdirAll s.world (filepathJoin [gridDirOf user, "originals"])).world user
        s.config.OnlyNonSteamGames).val
      { s with world := (env.GetGames (env.MkdirAll s.world
          (filepathJoin [gridDirOf user, "originals"])).world user
          s.config.OnlyNonSteamGames).world }

theorem usersLoop_keyOK {W O : Type} (env : Env W O) (overlays : O) (filter : String)
    (u : Nat) (l : List User) (s : State W) :
    KeyOK s.config (usersLoop env overlays filter u l s).state.config
      (usersLoop env overlays filter u l s).trace := by
  induction l generalizing s u with
  | nil => exact keyOK_nil _
  | cons x rest ih =>
    simp only [usersLoop]
    split
    · exact keyOK_nil _
    · exact keyOK_append (userBody_keyOK env overlays filter u x s) (ih _ _)

theorem startApplication_keyOK {W O : Type} (env : Env W O) (config : Config) (w : W) :
    KeyOK config (startApplication env config w).state.config
      (startApplication env config w).trace := by
  simp only [startApplication]
  split
  · exact keyOK_plain _ _ rfl
  · split
    · exact keyOK_plain _ _ rfl
    · split
      · exact keyOK_plain _ _ rfl
      · split
        · exact keyOK_plain _ _ rfl
        · refine keyOK_append (keyOK_plain config _ rfl) ?_
          exact usersLoop_keyOK env _ _ 0 _
            { initState config w with
              world := (env.GetUsers (env.GetSteamInstallation (env.LoadOverlays w
                (filepathJoin [env.exeDir, "overlays by category"]) artStyles).world
                config.SteamPath).world
                (env.GetSteamInstallation (env.LoadOverlays w
                  (filepathJoin [env.exeDir, "overlays by category"]) artStyles).world
                  config.SteamPath).val.1).world }

theorem styleBody_config_of_authFailure {W O : Type} (env : Env W O) (overlays : O)
    (filter gridDir : String) (ref : GameRef) (a : ArtStyle) (s : State W) (game : Game)
    (hscan : (callLoadExisting env gridDir a s game).game.ImageSource = "")
    (herr : (iterationDownload env filter gridDir ref a s game).val.2 = some authErrorText) :
    (styleBody env overlays filter gridDir ref a s game).state.config =
      { s.config with SteamGridDBAPIKey := "" } := by
  have hf := findImage_of_missing env filter gridDir ref a s game hscan
  have hc : (findImage env filter gridDir ref a s game).1.state.config = clearKey s.config := by
    rw [hf]
    show (downloadMissing env filter gridDir ref a (scanExisting env gridDir ref a s game).state
      (scanExisting env gridDir ref a s game).game).1.state.config = _
    rw [downloadMissing_config]
    have herr' : (callDownloadImage env filter gridDir a
        (scanExisting env gridDir ref a s game).state
        (scanExisting env gridDir ref a s game).game).val.2 = some authErrorText := herr
    rw [if_pos herr']
    rfl
  cases hb : (findImage env filter gridDir ref a s game).2 with
  | true =>
    rw [styleBody_of_skip env overlays filter gridDir ref a s game hb, hc]; rfl
  | false =>
    rw [styleBody_of_found env overlays filter gridDir ref a s game hb]
    have hfr := overlayAndSave_frame env overlays gridDir ref a
      (findImage env filter gridDir ref a s game).1.state
      (findImage env filter gridDir ref a s game).1.game
    show (overlayAndSave env overlays gridDir ref a _ _).state.config = _
    rw [hfr.1, hc]; rfl

set_option maxRecDepth 100000 in
/-- The run on `authFailEnv`: the first call of `DownloadImage` is passed the configured key and
returns the authorization error, the seven calls after it are passed the empty key. -/
theorem authFailEnv_download_keys :
    ((startApplication authFailEnv demoConfig ()).trace.filter Event.isDownload).map
        Event.downloadKey =
      [some "key", some "", some "", some "", some "", some "", some "", some ""] ∧
    (startApplication authFailEnv demoConfig ()).state.config =
      { demoConfig with SteamGridDBAPIKey := "" } := by
  decide

/-! ## A run in which no source finds an image -/

theorem Idle.refl {W : Type} (s : State W) : Idle s s :=
  ⟨rfl, rfl, rfl, rfl, rfl, rfl⟩

theorem Idle.trans {W : Type} {s r t : State W} (h₁ : Idle s r) (h₂ : Idle r t) : Idle s t :=
  ⟨h₂.1.trans h₁.1, h₂.2.trans h₁.2, h₂.3.trans h₁.3, h₂.4.trans h₁.4, h₂.5.trans h₁.5,
    h₂.6.trans h₁.6⟩

theorem enumerated_append (l₁ l₂ : List Event) :
    enumerated (l₁ ++ l₂) = enumerated l₁ ++ enumerated l₂ := by
  induction l₁ with
  | nil => rfl
  | cons e l ih => cases e <;> simp [enumerated, ih]

theorem enumerated_eq_nil (l : List Event) (h : l.any Event.isGetGames = false) :
    enumerated l = [] := by
  induction l with
  | nil => rfl
  | cons e l ih => cases e <;> simp_all [enumerated, Event.isGetGames]

theorem downloadMissing_notFound {W O : Type} (env : Env W O) (filter gridDir : String)
    (ref : GameRef) (a : ArtStyle) (s : State W) (game : Game)
    (h : (callDownloadImage env filter gridDir a s game).game.ImageSource = "") :
    (downloadMissing env filter gridDir ref a s game).2 = true ∧
    (downloadMissing env filter gridDir ref a s game).1.state.notFounds =
      s.notFounds.push a ref ∧
    Idle s (downloadMissing env filter gridDir ref a s game).1.state ∧
    (downloadMissing env filter gridDir ref a s game).1.state.exited = s.exited := by
  by_cases herr : (callDownloadImage env filter gridDir a s game).val.2 = some authErrorText
  · refine ⟨?_, ?_, ⟨?_, ?_, ?_, ?_, ?_, ?_⟩, ?_⟩ <;> simp [downloadMissing, h, herr]
  · refine ⟨?_, ?_, ⟨?_, ?_, ?_, ?_, ?_, ?_⟩, ?_⟩ <;> simp [downloadMissing, h, herr]

theorem styleBody_notFound {W O : Type} (env : Env W O) (hnf : NothingFound env) (overlays : O)
    (filter gridDir : String) (ref : GameRef) (a : ArtStyle) (s : State W) (game : Game) :
    (styleBody env overlays filter gridDir ref a s game).state.notFounds =
      s.notFounds.push a ref ∧
    Idle s (styleBody env overlays filter gridDir ref a s game).state ∧
    (styleBody env overlays filter gridDir ref a s game).state.exited = s.exited ∧
    (styleBody env overlays filter gridDir ref a s game).events.any Event.isSaveStep = false ∧
    (styleBody env overlays filter gridDir ref a s game).events.any Event.isGetGames = false := by
  have hscan : (callLoadExisting env gridDir a s game).game.ImageSource = "" :=
    hnf.1 _ _ _ _ _ rfl
  have hdl : (callDownloadImage env filter gridDir a (scanExisting env gridDir ref a s game).state
      (scanExisting env gridDir ref a s game).game).game.ImageSource = "" :=
    hnf.2 _ _ _ _ _ _ _ _ _ _ hscan
  have hd := downloadMissing_notFound env filter gridDir ref a
    (scanExisting env gridDir ref a s game).state (scanExisting env gridDir ref a s game).game hdl
  have hf := findImage_of_missing env filter gridDir ref a s game hscan
  have hskip : (findImage env filter gridDir ref a s game).2 = true := by
    rw [hf]; exact hd.1
  have hst : (findImage env filter gridDir ref a s game).1.state =
      (downloadMissing env filter gridDir ref a (scanExisting env gridDir ref a s game).state
        (scanExisting env gridDir ref a s game).game).1.state := by
    rw [hf]
  rw [styleBody_of_skip env overlays filter gridDir ref a s game hskip, hst]
  refine ⟨hd.2.1, ?_, hd.2.2.2, ?_, ?_⟩
  · exact Idle.trans (show Idle s (scanExisting env gridDir ref a s game).state from
      ⟨rfl, rfl, rfl, rfl, rfl, rfl⟩) hd.2.2.1
  · exact any_findImage env filter gridDir ref a s game _ (fun _ => rfl) (fun _ _ => rfl)
      (fun _ _ _ => rfl) (fun _ _ _ _ _ => rfl)
  · exact any_findImage env filter gridDir ref a s game _ (fun _ => rfl) (fun _ _ => rfl)
      (fun _ _ _ => rfl) (fun _ _ _ _ _ => rfl)

theorem stylesLoop_notFound {W O : Type} (env : Env W O) (hnf : NothingFound env) (overlays : O)
    (filter gridDir : String) (ref : GameRef) (l : List ArtStyle) (s : State W) (game : Game)
    (hrun : s.exited = false) :
    (∀ a, (stylesLoop env overlays filter gridDir ref l s game).state.notFounds a =
      s.notFounds a ++ List.replicate (l.count a) ref) ∧
    Idle s (stylesLoop env overlays filter gridDir ref l s game).state ∧
    (stylesLoop env overlays filter gridDir ref l s game).state.exited = false ∧
    (stylesLoop env overlays filter gridDir ref l s game).events.any Event.isSaveStep = false ∧
    (stylesLoop env overlays filter gridDir ref l s game).events.any Event.isGetGames = false := by
  induction l generalizing s game with
  | nil => exact ⟨fun a => by simp [stylesLoop], Idle.refl s, hrun, rfl, rfl⟩
  | cons b rest ih =>
    have hb := styleBody_notFound env hnf overlays filter gridDir ref b s game
    have hrun' : (styleBody env overlays filter gridDir ref b s game).state.exited = false := by
      rw [hb.2.2.1]; exact hrun
    have hi := ih (styleBody env overlays filter gridDir ref b s game).state
      (styleBody env overlays filter gridDir ref b s game).game hrun'
    simp only [stylesLoop, hrun, Bool.false_eq_true, if_false, List.any_append, hb.2.2.2.1,
      hb.2.2.2.2, hi.2.2.2.1, hi.2.2.2.2, Bool.or_self, and_true, hi.2.2.1]
    refine ⟨?_, Idle.trans hb.2.1 hi.2.1⟩
    intro a
    rw [hi.1 a, hb.1]
    by_cases hab : b = a
    · subst hab
      simp [Buckets.push, List.replicate_succ]
    · have hab' : ¬ a = b := fun h => hab h.symm
      simp [Buckets.push, hab, hab']

theorem count_styleOrder (o : StyleOrder) (a : ArtStyle) : o.val.count a = 1 := by
  rw [o.property.count_eq]
  cases a <;> rfl

theorem gameBody_notFound {W O : Type} (env : Env W O) (hnf : NothingFound env) (overlays : O)
    (filter gridDir : String) (user total i : Nat) (s : State W) (game : Game)
    (hrun : s.exited = false) :
    (∀ a, (gameBody env overlays filter gridDir user total (i + 1) s game).state.notFounds a =
      s.notFounds a ++ [⟨user, i⟩]) ∧
    Idle s (gameBody env overlays filter gridDir user total (i + 1) s game).state ∧
    (gameBody env overlays filter gridDir user total (i + 1) s game).state.exited = false ∧
    (gameBody env overlays filter gridDir user total (i + 1) s game).trace.any Event.isSaveStep
      = false ∧
    (gameBody env overlays filter gridDir user total (i + 1) s game).trace.any Event.isGetGames
      = false := by
  by_cases hn : game.Name = ""
  · have h := stylesLoop_notFound env hnf overlays filter gridDir ⟨user, i⟩
      (env.styleOrder user i).val { s with world := (env.GetGameName s.world game.ID).world }
      { game with Name := (env.GetGameName s.world game.ID).val } hrun
    simp only [gameBody, hn, if_true, Nat.add_sub_cancel]
    refine ⟨?_, ?_, h.2.2.1, ?_, ?_⟩
    · intro a
      rw [h.1 a, count_styleOrder]
      rfl
    · exact Idle.trans (show Idle s { s with world := (env.GetGameName s.world game.ID).world }
        from ⟨rfl, rfl, rfl, rfl, rfl, rfl⟩) h.2.1
    · rw [List.any_append, h.2.2.2.1]; rfl
    · rw [List.any_append, h.2.2.2.2]; rfl
  · have h := stylesLoop_notFound env hnf overlays filter gridDir ⟨user, i⟩
      (env.styleOrder user i).val s game hrun
    simp only [gameBody, hn, if_false, Nat.add_sub_cancel]
    refine ⟨?_, h.2.1, h.2.2.1, ?_, ?_⟩
    · intro a
      rw [h.1 a, count_styleOrder]
      rfl
    · rw [List.any_append, h.2.2.2.1]; rfl
    · rw [List.any_append, h.2.2.2.2]; rfl

theorem gamesLoop_notFound {W O : Type} (env : Env W O) (hnf : NothingFound env) (overlays : O)
    (filter gridDir : String) (user total : Nat) (l : List Game) (i : Nat) (s : State W)
    (hrun : s.exited = false) :
    (∀ a, (gamesLoop env overlays filter gridDir user total i l s).state.notFounds a =
      s.notFounds a ++ (List.range' i l.length).map (GameRef.mk user)) ∧
    Idle s (gamesLoop env overlays filter gridDir user total i l s).state ∧
    (gamesLoop env overlays filter gridDir user total i l s).state.exited = false ∧
    (gamesLoop env overlays filter gridDir user total i l s).trace.any Event.isSaveStep
      = false ∧
    (gamesLoop env overlays filter gridDir user total i l s).trace.any Event.isGetGames
      = false := by
  induction l generalizing s i with
  | nil => exact ⟨fun a => by simp [gamesLoop], Idle.refl s, hrun, rfl, rfl⟩
  | cons g rest ih =>
    have hb := gameBody_notFound env hnf overlays filter gridDir user total i s g hrun
    have hi := ih (i + 1) (gameBody env overlays filter gridDir user total (i + 1) s g).state
      hb.2.2.1
    simp only [gamesLoop, hrun, Bool.false_eq_true, if_false]
    refine ⟨?_, Idle.trans hb.2.1 hi.2.1, hi.2.2.1, ?_, ?_⟩
    · intro a
      rw [hi.1 a, hb.1 a]
      simp [List.range'_succ]
    · rw [List.any_append, hb.2.2.2.1, hi.2.2.2.1]; rfl
    · rw [List.any_append, hb.2.2.2.2, hi.2.2.2.2]; rfl

theorem notFoundRun_nil {W : Type} (s : State W) : NotFoundRun s { state := s, trace := [] } :=
  ⟨fun a => by simp [enumerated], Idle.refl s, rfl⟩

theorem notFoundRun_append {W : Type} {s : State W} {r t : Run W} (h₁ : NotFoundRun s r)
    (h₂ : NotFoundRun r.state t) :
    NotFoundRun s { state := t.state, trace := r.trace ++ t.trace } := by
  refine ⟨?_, Idle.trans h₁.idle h₂.idle, ?_⟩
  · intro a
    show t.state.notFounds a = _
    rw [h₂.notFounds a, h₁.notFounds a, enumerated_append, List.append_assoc]
  · show (r.trace ++ t.trace).any Event.isSaveStep = false
    rw [List.any_append, h₁.quiet, h₂.quiet]; rfl

theorem userBody_notFound {W O : Type} (env : Env W O) (hnf : NothingFound env) (overlays : O)
    (filter : String) (u : Nat) (user : User) (s : State W) (hrun : s.exited = false) :
    NotFoundRun s (userBody env overlays filter u user s) := by
  simp only [userBody]
  split
  · exact ⟨fun a => by simp [errorAndExit, enumerated], ⟨rfl, rfl, rfl, rfl, rfl, rfl⟩, rfl⟩
  · have h := gamesLoop_notFound env hnf overlays filter (gridDirOf user) u
      (env.GetGames (env.MkdirAll s.world (filepathJoin [gridDirOf user, "originals"])).world user
        s.config.OnlyNonSteamGames).val.length
      (env.GetGames (env.MkdirAll s.world (filepathJoin [gridDirOf user, "originals"])).world user
        s.config.OnlyNonSteamGames).val 0
      { s with world := (env.GetGames (env.MkdirAll s.world
          (filepathJoin [gridDirOf user, "originals"])).world user
          s.config.OnlyNonSteamGames).world } hrun
    refine ⟨?_, ?_, ?_⟩
    · intro a
      have h1 := h.1 a
      have h2 := enumerated_eq_nil _ h.2.2.2.2
      simp only [enumerated_append, h2, enumerated, List.append_nil, List.nil_append,
        List.append_eq]
      rw [h1, List.range_eq_range']
    · exact Idle.trans (show Idle s { s with world := (env.GetGames (env.MkdirAll s.world
          (filepathJoin [gridDirOf user, "originals"])).world user
          s.config.OnlyNonSteamGames).world } from ⟨rfl, rfl, rfl, rfl, rfl, rfl⟩) h.2.1
    · have h3 := h.2.2.2.1
      simp only [List.any_append] at h3 ⊢
      rw [h3]; rfl

theorem usersLoop_notFound {W O : Type} (env : Env W O) (hnf : NothingFound env) (overlays : O)
    (filter : String) (l : List User) (u : Nat) (s : State W) :
    NotFoundRun s (usersLoop env overlays filter u l s) := by
  induction l generalizing s u with
  | nil => exact notFoundRun_nil s
  | cons x rest ih =>
    simp only [usersLoop]
    split
    · exact notFoundRun_nil s
    · rename_i hx
      have hrun : s.exited = false := by simpa using hx
      exact notFoundRun_append (userBody_notFound env hnf overlays filter u x s hrun) (ih _ _)

theorem notFoundRun_plain {W : Type} (s t : State W) (tr : List Event)
    (hn : t.notFounds = s.notFounds) (hi : Idle s t) (h1 : tr.any Event.isSaveStep = false)
    (h2 : tr.any Event.isGetGames = false) : NotFoundRun s { state := t, trace := tr } :=
  ⟨fun a => by simp [enumerated_eq_nil tr h2, hn], hi, h1⟩

theorem startApplication_notFound {W O : Type} (env : Env W O) (hnf : NothingFound env)
    (config : Config) (w : W) :
    NotFoundRun (initState config w) (startApplication env config w) := by
  simp only [startApplication]
  split
  · exact notFoundRun_plain _ _ _ rfl ⟨rfl, rfl, rfl, rfl, rfl, rfl⟩ rfl rfl
  · split
    · exact notFoundRun_plain _ _ _ rfl ⟨rfl, rfl, rfl, rfl, rfl, rfl⟩ rfl rfl
    · split
      · exact notFoundRun_plain _ _ _ rfl ⟨rfl, rfl, rfl, rfl, rfl, rfl⟩ rfl rfl
      · split
        · exact notFoundRun_plain _ _ _ rfl ⟨rfl, rfl, rfl, rfl, rfl, rfl⟩ rfl rfl
        · exact notFoundRun_append
            (r := { state := { initState config w with
                      world := (env.GetUsers (env.GetSteamInstallation (env.LoadOverlays w
                        (filepathJoin [env.exeDir, "overlays by category"]) artStyles).world
                        config.SteamPath).world
                        (env.GetSteamInstallation (env.LoadOverlays w
                          (filepathJoin [env.exeDir, "overlays by category"]) artStyles).world
                          config.SteamPath).val.1).world }
                    trace := _ })
            (notFoundRun_plain _ _ _ rfl ⟨rfl, rfl, rfl, rfl, rfl, rfl⟩ rfl rfl)
            (usersLoop_notFound env hnf _ _ _ 0 _)

/-! ## Failures of the persist step -/

theorem overlayAndSave_exited {W O : Type} (env : Env W O) (overlays : O) (gridDir : String)
    (ref : GameRef) (a : ArtStyle) (s : State W) (game : Game) :
    (overlayAndSave env overlays gridDir ref a s game).state.exited =
      match (callBackupGame env overlays gridDir a s game).val with
      | some _ => true
      | none => s.exited := by
  simp only [overlayAndSave, errorAndExit]
  cases (callBackupGame env overlays gridDir a s game).val <;>
    cases (callApplyOverlay env overlays a s game).val <;>
    by_cases h : (callApplyOverlay env overlays a s game).game.OverlayImageBytes = none <;>
    simp [h]

theorem styleBody_exited {W O : Type} (env : Env W O) (overlays : O) (filter gridDir : String)
    (ref : GameRef) (a : ArtStyle) (s : State W) (game : Game) :
    (styleBody env overlays filter gridDir ref a s game).state.exited =
      if (findImage env filter gridDir ref a s game).2 = false ∧
          (iterationBackup env overlays filter gridDir ref a s game).val ≠ none then true
      else s.exited := by
  have hfr := (findImage_frame env filter gridDir ref a s game).2.2.2
  cases hb : (findImage env filter gridDir ref a s game).2 with
  | true =>
    rw [styleBody_of_skip env overlays filter gridDir ref a s game hb, hfr]
    simp
  | false =>
    rw [styleBody_of_found env overlays filter gridDir ref a s game hb]
    show (overlayAndSave env overlays gridDir ref a _ _).state.exited = _
    rw [overlayAndSave_exited, hfr]
    simp only [iterationBackup, true_and]
    cases (callBackupGame env overlays gridDir a
      (findImage env filter gridDir ref a s game).1.state
      (findImage env filter gridDir ref a s game).1.game).val <;> simp

theorem loadExisting_mem_styleBody {W O : Type} (env : Env W O) (overlays : O)
    (filter gridDir : String) (ref : GameRef) (a : ArtStyle) (s : State W) (game : Game) :
    Event.LoadExisting ref a ∈ (styleBody env overlays filter gridDir ref a s game).events := by
  have h0 : Event.LoadExisting ref a ∈ (findImage env filter gridDir ref a s game).1.events := by
    simp only [findImage]
    split <;> simp [scanExisting]
  cases hb : (findImage env filter gridDir ref a s game).2 with
  | true =>
    rw [styleBody_of_skip env overlays filter gridDir ref a s game hb]
    exact h0
  | false =>
    rw [styleBody_of_found env overlays filter gridDir ref a s game hb]
    exact List.mem_append_left _ h0

theorem any_styleBody {W O : Type} (env : Env W O) (overlays : O) (filter gridDir : String)
    (ref : GameRef) (a : ArtStyle) (s : State W) (game : Game) (p : Event → Bool)
    (ho : ∀ t, p (Event.stdout t) = false) (he : ∀ t, p (Event.stderr t) = false)
    (hx : ∀ c, p (Event.exit c) = false)
    (h1 : ∀ r b, p (Event.LoadExisting r b) = false)
    (h2 : ∀ r b e, p (Event.RemoveExisting r b e) = false)
    (h3 : ∀ r b k o e, p (Event.DownloadImage r b k o e) = false)
    (h4 : ∀ x d e, p (Event.WriteFile x d e) = false)
    (h5 : ∀ r b e, p (Event.ApplyOverlay r b e) = false)
    (h6 : ∀ r b e, p (Event.BackupGame r b e) = false) :
    (styleBody env overlays filter gridDir ref a s game).events.any p = false := by
  have h0 := any_findImage env filter gridDir ref a s game p ho h1 h2 h3
  cases hb : (findImage env filter gridDir ref a s game).2 with
  | true =>
    rw [styleBody_of_skip env overlays filter gridDir ref a s game hb]
    exact h0
  | false =>
    rw [styleBody_of_found env overlays filter gridDir ref a s game hb]
    show List.any (_ ++ _) p = false
    rw [List.any_append, h0, any_overlayAndSave env overlays gridDir ref a _ _ p ho he hx h4 h5 h6]
    rfl

theorem stylesLoop_covers {W O : Type} (env : Env W O)
    (hbk : ∀ w d g e, (env.BackupGame w d g e).val = none) (overlays : O)
    (filter gridDir : String) (ref : GameRef) (l : List ArtStyle) (s : State W) (game : Game)
    (hrun : s.exited = false) :
    (∀ a ∈ l, Event.LoadExisting ref a ∈
      (stylesLoop env overlays filter gridDir ref l s game).events) ∧
    (stylesLoop env overlays filter gridDir ref l s game).state.exited = false ∧
    (stylesLoop env overlays filter gridDir ref l s game).events.any Event.isGetGames = false := by
  induction l generalizing s game with
  | nil => exact ⟨fun a ha => (by cases ha), hrun, rfl⟩
  | cons b rest ih =>
    have hx : (styleBody env overlays filter gridDir ref b s game).state.exited = false := by
      rw [styleBody_exited, hrun]
      simp [iterationBackup, callBackupGame, hbk]
    have hi := ih (styleBody env overlays filter gridDir ref b s game).state
      (styleBody env overlays filter gridDir ref b s game).game hx
    simp only [stylesLoop, hrun, Bool.false_eq_true, if_false]
    refine ⟨?_, hi.2.1, ?_⟩
    · intro a ha
      rcases List.mem_cons.mp ha with h | h
      · rw [h]
        exact List.mem_append_left _
          (loadExisting_mem_styleBody env overlays filter gridDir ref b s game)
      · exact List.mem_append_right _ (hi.1 a h)
    · rw [List.any_append, hi.2.2,
        any_styleBody env overlays filter gridDir ref b s game _ (fun _ => rfl) (fun _ => rfl)
          (fun _ => rfl) (fun _ _ => rfl) (fun _ _ _ => rfl) (fun _ _ _ _ _ => rfl)
          (fun _ _ _ => rfl) (fun _ _ _ => rfl) (fun _ _ _ => rfl)]
      rfl

theorem mem_styleOrder (o : StyleOrder) (a : ArtStyle) : a ∈ o.val := by
  rw [o.property.mem_iff]
  cases a <;> simp [ArtStyle.all]

theorem gameBody_covers {W O : Type} (env : Env W O)
    (hbk : ∀ w d g e, (env.BackupGame w d g e).val = none) (overlays : O)
    (filter gridDir : String) (user total i : Nat) (s : State W) (game : Game)
    (hrun : s.exited = false) :
    (∀ a, Event.LoadExisting ⟨user, i⟩ a ∈
      (gameBody env overlays filter gridDir user total (i + 1) s game).trace) ∧
    (gameBody env overlays filter gridDir user total (i + 1) s game).state.exited = false ∧
    (gameBody env overlays filter gridDir user total (i + 1) s game).trace.any Event.isGetGames
      = false := by
  by_cases hn : game.Name = ""
  · have h := stylesLoop_covers env hbk overlays filter gridDir ⟨user, i⟩
      (env.styleOrder user i).val { s with world := (env.GetGameName s.world game.ID).world }
      { game with Name := (env.GetGameName s.world game.ID).val } hrun
    simp only [gameBody, hn, if_true, Nat.add_sub_cancel]
    refine ⟨fun a => List.mem_append_right _ (h.1 a (mem_styleOrder _ a)), h.2.1, ?_⟩
    rw [List.any_append, h.2.2]; rfl
  · have h := stylesLoop_covers env hbk overlays filter gridDir ⟨user, i⟩
      (env.styleOrder user i).val s game hrun
    simp only [gameBody, hn, if_false, Nat.add_sub_cancel]
    refine ⟨fun a => List.mem_append_right _ (h.1 a (mem_styleOrder _ a)), h.2.1, ?_⟩
    rw [List.any_append, h.2.2]; rfl

theorem gamesLoop_covers {W O : Type} (env : Env W O)
    (hbk : ∀ w d g e, (env.BackupGame w d g e).val = none) (overlays : O)
    (filter gridDir : String) (user total : Nat) (l : List Game) (i : Nat) (s : State W)
    (hrun : s.exited = false) :
    (∀ j, i ≤ j → j < i + l.length → ∀ a, Event.LoadExisting ⟨user, j⟩ a ∈
      (gamesLoop env overlays filter gridDir user total i l s).trace) ∧
    (gamesLoop env overlays filter gridDir user total i l s).state.exited = false ∧
    (gamesLoop env overlays filter gridDir user total i l s).trace.any Event.isGetGames
      = false := by
  induction l generalizing s i with
  | nil =>
    refine ⟨fun j h1 h2 => ?_, hrun, rfl⟩
    simp at h2
    omega
  | cons g rest ih =>
    have hb := gameBody_covers env hbk overlays filter gridDir user total i s g hrun
    have hi := ih (i + 1) (gameBody env overlays filter gridDir user total (i + 1) s g).state
      hb.2.1
    simp only [gamesLoop, hrun, Bool.false_eq_true, if_false]
    refine ⟨?_, hi.2.1, ?_⟩
    · intro j h1 h2 a
      by_cases hj : j = i
      · rw [hj]
        exact List.mem_append_left _ (hb.1 a)
      · refine List.mem_append_right _ (hi.1 j (by omega) ?_ a)
        simp only [List.length_cons] at h2
        omega
    · rw [List.any_append, hb.2.2, hi.2.2]; rfl

theorem covered_append {t₁ t₂ : List Event} (h₁ : Covered t₁) (h₂ : Covered t₂) :
    Covered (t₁ ++ t₂) := by
  intro u n hg i hi a
  rcases List.mem_append.mp hg with h | h
  · exact List.mem_append_left _ (h₁ u n h i hi a)
  · exact List.mem_append_right _ (h₂ u n h i hi a)

theorem covered_plain (tr : List Event) (h : tr.any Event.isGetGames = false) : Covered tr := by
  intro u n hg
  have := List.any_eq_false.mp h _ hg
  simp [Event.isGetGames] at this

theorem userBody_covers {W O : Type} (env : Env W O)
    (hbk : ∀ w d g e, (env.BackupGame w d g e).val = none) (overlays : O)
    (filter : String) (u : Nat) (user : User) (s : State W) (hrun : s.exited = false) :
    Covered (userBody env overlays filter u user s).trace := by
  simp only [userBody]
  split
  · exact covered_plain _ rfl
  · have h := gamesLoop_covers env hbk overlays filter (gridDirOf user) u
      (env.GetGames (env.MkdirAll s.world (filepathJoin [gridDirOf user, "originals"])).world user
        s.config.OnlyNonSteamGames).val.length
      (env.GetGames (env.MkdirAll s.world (filepathJoin [gridDirOf user, "originals"])).world user
        s.config.OnlyNonSteamGames).val 0
      { s with world := (env.GetGames (env.MkdirAll s.world
          (filepathJoin [gridDirOf user, "originals"])).world user
          s.config.OnlyNonSteamGames).world } hrun
    intro u' n hg i hi a
    simp only [List.mem_append, List.mem_cons, List.mem_singleton, reduceCtorEq, false_or,
      or_false, Event.GetGames.injEq, List.not_mem_nil] at hg
    rcases hg with ⟨h1, h2⟩ | hg
    · subst h1
      rw [h2] at hi
      exact List.mem_append_right _
        (h.1 i (Nat.zero_le _) (by simpa using hi) a)
    · have := List.any_eq_false.mp h.2.2 _ hg
      simp [Event.isGetGames] at this

theorem usersLoop_covers {W O : Type} (env : Env W O)
    (hbk : ∀ w d g e, (env.BackupGame w d g e).val = none) (overlays : O)
    (filter : String) (l : List User) (u : Nat) (s : State W) :
    Covered (usersLoop env overlays filter u l s).trace := by
  induction l generalizing s u with
  | nil => exact covered_plain _ rfl
  | cons x rest ih =>
    simp only [usersLoop]
    split
    · exact covered_plain _ rfl
    · rename_i hx
      have hrun : s.exited = false := by simpa using hx
      exact covered_append (userBody_covers env hbk overlays filter u x s hrun) (ih _ _)

theorem startApplication_covers {W O : Type} (env : Env W O)
    (hbk : ∀ w d g e, (env.BackupGame w d g e).val = none) (config : Config) (w : W) :
    Covered (startApplication env config w).trace := by
  simp only [startApplication]
  split
  · exact covered_plain _ rfl
  · split
    · exact covered_plain _ rfl
    · split
      · exact covered_plain _ rfl
      · split
        · exact covered_plain _ rfl
        · exact covered_append (covered_plain _ rfl) (usersLoop_covers env hbk _ _ _ 0 _)

set_option maxRecDepth 100000 in
/-- C6 (as stated, refuted): with `BackupGame` failing, the run ends in the first iteration:
the error is printed, the process exits, and no other style, game or user is processed. -/
theorem C6_backup_failure_aborts_counterexample :
    (startApplication backupFailEnv demoConfig ()).state.exited = true ∧
    (startApplication backupFailEnv demoConfig ()).trace =
      [Event.stdout "Loading overlays...\n",
       Event.LoadOverlays none,
       Event.stdout (overlaysLine 0),
       Event.stdout lookingLine,
       Event.GetSteamInstallation none,
       Event.stdout "Loading users...\n",
       Event.GetUsers none,
       Event.stdout "Loading games for alice\n",
       Event.MkdirAll "/steam/userdata/1/config/grid/originals" none,
       Event.GetGames 0 2,
       Event.stdout "Loading existing images and backups...\n",
       Event.stdout "Processing Test Game (1/2)\n",
       Event.LoadExisting ⟨0, 0⟩ ArtStyle.Banner,
       Event.RemoveExisting ⟨0, 0⟩ ArtStyle.Banner none,
       Event.stdout "Banner found from override\n",
       Event.ApplyOverlay ⟨0, 0⟩ ArtStyle.Banner none,
       Event.BackupGame ⟨0, 0⟩ ArtStyle.Banner (some "read-only file system"),
       Event.stdout "read-only file system\n",
       Event.exit 0] := by
  decide

/-! ## The API key `DownloadImage` receives -/

theorem downloadLog_append (l₁ l₂ : List Event) :
    downloadLog (l₁ ++ l₂) = downloadLog l₁ ++ downloadLog l₂ := by
  induction l₁ with
  | nil => rfl
  | cons e l ih => cases e <;> simp [downloadLog, ih]

theorem downloadLog_eq_nil (l : List Event) (h : l.any Event.isDownload = false) :
    downloadLog l = [] := by
  induction l with
  | nil => rfl
  | cons e l ih =>
    rw [List.any_cons, Bool.or_eq_false_iff] at h
    cases e with
    | DownloadImage g a k o err => exact absurd h.1 (by simp [Event.isDownload])
    | _ => exact ih h.2

theorem downloadMissing_world {W O : Type} (env : Env W O) (filter gridDir : String)
    (ref : GameRef) (a : ArtStyle) (s : State W) (game : Game) :
    (downloadMissing env filter gridDir ref a s game).1.state.world =
      (callDownloadImage env filter gridDir a s game).world := by
  simp only [downloadMissing]
  split
  · split <;> rfl
  · split <;> split <;> (try split) <;> (try split) <;> (try split) <;> rfl

theorem downloadMissing_logged {W O : Type} (env : Env W O) (filter gridDir : String)
    (ref : GameRef) (a : ArtStyle) (s : State (W × DownloadLog)) (game : Game) :
    (downloadMissing (recording env) filter gridDir ref a s game).1.state.world.2 =
      s.world.2 ++ downloadLog (downloadMissing (recording env) filter gridDir ref a s
        game).1.events := by
  rw [downloadMissing_world, downloadMissing_events]
  have h2 : downloadLog (printlnErr (callDownloadImage (recording env) filter gridDir a s
      game).val.2 ++
      if (callDownloadImage (recording env) filter gridDir a s game).game.ImageSource = "" then
        [Event.stdout (a.name ++ " not found\n")] else []) = [] := by
    refine downloadLog_eq_nil _ ?_
    rw [List.any_append, any_printlnErr _ (fun _ => rfl)]
    split <;> rfl
  rw [List.append_assoc, downloadLog_append, h2]
  rfl

theorem saveResult_logged {W O : Type} (env : Env W O) (gridDir : String) (a : ArtStyle)
    (w : W × DownloadLog) (game : Game) :
    (saveResult (recording env) gridDir a w game).world.2 = w.2 := by
  simp only [saveResult, legacyCopy]
  split
  · split <;> rfl
  · rfl

theorem overlayAndSave_world {W O : Type} (env : Env W O) (overlays : O) (gridDir : String)
    (ref : GameRef) (a : ArtStyle) (s : State W) (game : Game) :
    (overlayAndSave env overlays gridDir ref a s game).state.world =
      match (callBackupGame env overlays gridDir a s game).val with
      | some _ => (callBackupGame env overlays gridDir a s game).world
      | none =>
        (saveResult env gridDir a (callBackupGame env overlays gridDir a s game).world
          (overlaidGame env overlays a s game)).world := by
  simp only [overlayAndSave, errorAndExit]
  cases (callBackupGame env overlays gridDir a s game).val <;>
    cases (callApplyOverlay env overlays a s game).val <;>
    by_cases h : (callApplyOverlay env overlays a s game).game.OverlayImageBytes = none <;>
    simp [h]

theorem overlayAndSave_logged {W O : Type} (env : Env W O) (overlays : O) (gridDir : String)
    (ref : GameRef) (a : ArtStyle) (s : State (W × DownloadLog)) (game : Game) :
    (overlayAndSave (recording env) overlays gridDir ref a s game).state.world.2 =
      s.world.2 ++ downloadLog (overlayAndSave (recording env) overlays gridDir ref a s
        game).events := by
  rw [downloadLog_eq_nil _ (any_overlayAndSave (recording env) overlays gridDir ref a s game _
    (fun _ => rfl) (fun _ => rfl) (fun _ => rfl) (fun _ _ _ => rfl) (fun _ _ _ => rfl)
    (fun _ _ _ => rfl)), List.append_nil, overlayAndSave_world]
  cases (callBackupGame (recording env) overlays gridDir a s game).val with
  | some m => rfl
  | none =>
    show (saveResult (recording env) gridDir a _ _).world.2 = _
    rw [saveResult_logged]
    rfl

theorem findImage_logged {W O : Type} (env : Env W O) (filter gridDir : String)
    (ref : GameRef) (a : ArtStyle) (s : State (W × DownloadLog)) (game : Game) :
    (findImage (recording env) filter gridDir ref a s game).1.state.world.2 =
      s.world.2 ++ downloadLog (findImage (recording env) filter gridDir ref a s
        game).1.events := by
  have hsc : downloadLog (scanExisting (recording env) gridDir ref a s game).events = [] :=
    downloadLog_eq_nil _ (any_scanExisting (recording env) gridDir ref a s game _
      (fun _ => rfl) (fun _ _ => rfl) (fun _ _ _ => rfl))
  simp only [findImage]
  split
  · show (downloadMissing (recording env) filter gridDir ref a _ _).1.state.world.2 =
      s.world.2 ++ downloadLog (_ ++ _)
    rw [downloadLog_append, hsc, downloadMissing_logged]
    rfl
  · rw [hsc, List.append_nil]
    rfl

theorem styleBody_logged {W O : Type} (env : Env W O) (overlays : O) (filter gridDir : String)
    (ref : GameRef) (a : ArtStyle) (s : State (W × DownloadLog)) (game : Game) :
    (styleBody (recording env) overlays filter gridDir ref a s game).state.world.2 =
      s.world.2 ++ downloadLog (styleBody (recording env) overlays filter gridDir ref a s
        game).events := by
  have hf := findImage_logged env filter gridDir ref a s game
  cases hb : (findImage (recording env) filter gridDir ref a s game).2 with
  | true =>
    rw [styleBody_of_skip (recording env) overlays filter gridDir ref a s game hb]
    exact hf
  | false =>
    rw [styleBody_of_found (recording env) overlays filter gridDir ref a s game hb]
    show (overlayAndSave (recording env) overlays gridDir ref a _ _).state.world.2 =
      s.world.2 ++ downloadLog (_ ++ _)
    rw [overlayAndSave_logged, hf, downloadLog_append, List.append_assoc]

theorem stylesLoop_logged {W O : Type} (env : Env W O) (overlays : O) (filter gridDir : String)
    (ref : GameRef) (l : List ArtStyle) (s : State (W × DownloadLog)) (game : Game) :
    (stylesLoop (recording env) overlays filter gridDir ref l s game).state.world.2 =
      s.world.2 ++ downloadLog (stylesLoop (recording env) overlays filter gridDir ref l s
        game).events := by
  induction l generalizing s game with
  | nil => simp [stylesLoop, downloadLog]
  | cons b rest ih =>
    simp only [stylesLoop]
    split
    · simp [downloadLog]
    · show (stylesLoop (recording env) overlays filter gridDir ref rest _ _).state.world.2 =
        s.world.2 ++ downloadLog (_ ++ _)
      rw [ih, styleBody_logged, downloadLog_append, List.append_assoc]

theorem gameBody_logged {W O : Type} (env : Env W O) (overlays : O) (filter gridDir : String)
    (user total i : Nat) (s : State (W × DownloadLog)) (game : Game) :
    (gameBody (recording env) overlays filter gridDir user total i s game).state.world.2 =
      s.world.2 ++ downloadLog (gameBody (recording env) overlays filter gridDir user total i s
        game).trace := by
  simp only [gameBody]
  rw [downloadLog_append, stylesLoop_logged]
  split <;> simp [downloadLog, recording]

theorem gamesLoop_logged {W O : Type} (env : Env W O) (overlays : O) (filter gridDir : String)
    (user total : Nat) (l : List Game) (i : Nat) (s : State (W × DownloadLog)) :
    (gamesLoop (recording env) overlays filter gridDir user total i l s).state.world.2 =
      s.world.2 ++ downloadLog (gamesLoop (recording env) overlays filter gridDir user total i
        l s).trace := by
  induction l generalizing s i with
  | nil => simp [gamesLoop, downloadLog]
  | cons g rest ih =>
    simp only [gamesLoop]
    split
    · simp [downloadLog]
    · show (gamesLoop (recording env) overlays filter gridDir user total (i + 1) rest
        _).state.world.2 = s.world.2 ++ downloadLog (_ ++ _)
      rw [ih, gameBody_logged, downloadLog_append, List.append_assoc]

theorem userBody_logged {W O : Type} (env : Env W O) (overlays : O) (filter : String)
    (u : Nat) (user : User) (s : State (W × DownloadLog)) :
    (userBody (recording env) overlays filter u user s).state.world.2 =
      s.world.2 ++ downloadLog (userBody (recording env) overlays filter u user s).trace := by
  simp only [userBody]
  split
  · simp [errorAndExit, downloadLog, recording]
  · show (gamesLoop (recording env) overlays filter _ u _ 0 _ _).state.world.2 =
      s.world.2 ++ downloadLog (_ ++ _ ++ _)
    rw [gamesLoop_logged, downloadLog_append, downloadLog_append]
    simp [downloadLog, recording]

theorem usersLoop_logged {W O : Type} (env : Env W O) (overlays : O) (filter : String)
    (l : List User) (u : Nat) (s : State (W × DownloadLog)) :
    (usersLoop (recording env) overlays filter u l s).state.world.2 =
      s.world.2 ++ downloadLog (usersLoop (recording env) overlays filter u l s).trace := by
  induction l generalizing s u with
  | nil => simp [usersLoop, downloadLog]
  | cons x rest ih =>
    simp only [usersLoop]
    split
    · simp [downloadLog]
    · show (usersLoop (recording env) overlays filter (u + 1) rest _).state.world.2 =
        s.world.2 ++ downloadLog (_ ++ _)
      rw [ih, userBody_logged, downloadLog_append, List.append_assoc]

theorem startApplication_logged {W O : Type} (env : Env W O) (config : Config) (w : W)
    (log : DownloadLog) :
    (startApplication (recording env) config (w, log)).state.world.2 =
      log ++ downloadLog (startApplication (recording env) config (w, log)).trace := by
  simp only [startApplication]
  split
  · simp [errorAndExit, downloadLog, recording, initState]
  · split
    · simp [errorAndExit, downloadLog, recording, initState]
    · split
      · simp [errorAndExit, downloadLog, recording, initState]
      · split
        · simp [errorAndExit, downloadLog, recording, initState]
        · show (usersLoop (recording env) _ _ 0 _ _).state.world.2 = log ++ downloadLog (_ ++ _)
          rw [usersLoop_logged, downloadLog_append]
          simp [downloadLog, recording, initState]

theorem pairwise_downloadLog (tr : List Event) (h : tr.Pairwise keyRespected) :
    (downloadLog tr).Pairwise (fun c₁ c₂ => c₁.2 = some authErrorText → c₂.1 = "") := by
  induction tr with
  | nil => exact List.Pairwise.nil
  | cons e l ih =>
    rw [List.pairwise_cons] at h
    have hl := ih h.2
    cases e with
    | DownloadImage g a k o err =>
      simp only [downloadLog]
      rw [List.pairwise_cons]
      refine ⟨?_, hl⟩
      intro c hc hauth
      have hmem : ∀ (l : List Event) (c : String × GoError), c ∈ downloadLog l →
          ∃ e ∈ l, e.downloadKey = some c.1 := by
        intro l
        induction l with
        | nil => intro c hc; cases hc
        | cons x xs ihx =>
          intro c hc
          cases x with
          | DownloadImage g' a' k' o' err' =>
            simp only [downloadLog, List.mem_cons] at hc
            rcases hc with h1 | h1
            · exact ⟨_, List.mem_cons_self _ _, by rw [h1]; rfl⟩
            · obtain ⟨e, he, hk⟩ := ihx c h1
              exact ⟨e, List.mem_cons_of_mem _ he, hk⟩
          | _ =>
            simp only [downloadLog] at hc
            obtain ⟨e, he, hk⟩ := ihx c hc
            exact ⟨e, List.mem_cons_of_mem _ he, hk⟩
      obtain ⟨e', he', hk'⟩ := hmem l c hc
      have hauth' : err = some authErrorText := hauth
      exact h.1 e' he' (by simp [Event.isAuthFailure, hauth']) c.1 hk'
    | _ => simpa [downloadLog] using hl

/-! ## The users a run visits -/

theorem usersVisited_append (l₁ l₂ : List Event) :
    usersVisited (l₁ ++ l₂) = usersVisited l₁ ++ usersVisited l₂ := by
  induction l₁ with
  | nil => rfl
  | cons e l ih => cases e <;> simp [usersVisited, ih]

theorem usersVisited_eq_nil (l : List Event) (h : l.any Event.isGetGames = false) :
    usersVisited l = [] := by
  induction l with
  | nil => rfl
  | cons e l ih =>
    rw [List.any_cons, Bool.or_eq_false_iff] at h
    cases e with
    | GetGames u n => exact absurd h.1 (by simp [Event.isGetGames])
    | _ => exact ih h.2

theorem userBody_visits {W O : Type} (env : Env W O) (overlays : O) (filter : String)
    (hmk : ∀ w p, (env.MkdirAll w p).val = none)
    (hgames : ∀ (gridDir : String) (u total : Nat) (l : List Game) (i : Nat) (s : State W),
      s.exited = false →
      (gamesLoop env overlays filter gridDir u total i l s).state.exited = false ∧
      (gamesLoop env overlays filter gridDir u total i l s).trace.any Event.isGetGames = false)
    (u : Nat) (user : User) (s : State W) (hrun : s.exited = false) :
    (userBody env overlays filter u user s).state.exited = false ∧
    usersVisited (userBody env overlays filter u user s).trace = [u] := by
  have hg := hgames (gridDirOf user) u
    (env.GetGames (env.MkdirAll s.world (filepathJoin [gridDirOf user, "originals"])).world user
      s.config.OnlyNonSteamGames).val.length
    (env.GetGames (env.MkdirAll s.world (filepathJoin [gridDirOf user, "originals"])).world user
      s.config.OnlyNonSteamGames).val 0
    { s with world := (env.GetGames (env.MkdirAll s.world
        (filepathJoin [gridDirOf user, "originals"])).world user
        s.config.OnlyNonSteamGames).world } hrun
  simp only [userBody, hmk]
  refine ⟨hg.1, ?_⟩
  simp only [usersVisited_append, usersVisited_eq_nil _ hg.2, usersVisited, List.append_nil,
    List.nil_append, List.append_eq, List.singleton_append]

theorem usersLoop_visits {W O : Type} (env : Env W O) (overlays : O) (filter : String)
    (hbody : ∀ (u : Nat) (user : User) (s : State W), s.exited = false →
      (userBody env overlays filter u user s).state.exited = false ∧
      usersVisited (userBody env overlays filter u user s).trace = [u])
    (l : List User) (u : Nat) (s : State W) (hrun : s.exited = false) :
    (usersLoop env overlays filter u l s).state.exited = false ∧
    usersVisited (usersLoop env overlays filter u l s).trace = List.range' u l.length := by
  induction l generalizing s u with
  | nil => exact ⟨hrun, rfl⟩
  | cons x rest ih =>
    have hb := hbody u x s hrun
    have hi := ih (u + 1) (userBody env overlays filter u x s).state hb.1
    simp only [usersLoop, hrun, Bool.false_eq_true, if_false]
    refine ⟨hi.1, ?_⟩
    rw [usersVisited_append, hb.2, hi.2]
    simp [List.range'_succ]

theorem startApplication_visits {W O : Type} (env : Env W O) (config : Config) (w : W)
    (hmk : ∀ w p, (env.MkdirAll w p).val = none)
    (hgames : ∀ (overlays : O) (filter gridDir : String) (u total : Nat) (l : List Game)
      (i : Nat) (s : State W), s.exited = false →
      (gamesLoop env overlays filter gridDir u total i l s).state.exited = false ∧
      (gamesLoop env overlays filter gridDir u total i l s).trace.any Event.isGetGames = false)
    (hsu : SetUpDone env config w) :
    (startApplication env config w).state.exited = false ∧
    usersVisited (startApplication env config w).trace =
      List.range (callGetUsers env config w).val.1.length := by
  obtain ⟨h1, h2, h3, h4⟩ := hsu
  simp only [callGetUsers, callGetSteamInstallation, callLoadOverlays] at h1 h2 h3 h4 ⊢
  have h5 : ¬ (env.GetUsers (env.GetSteamInstallation (env.LoadOverlays w
      (filepathJoin [env.exeDir, "overlays by category"]) artStyles).world
      config.SteamPath).world (env.GetSteamInstallation (env.LoadOverlays w
      (filepathJoin [env.exeDir, "overlays by category"]) artStyles).world
      config.SteamPath).val.1).val.1.length = 0 := by
    intro h
    exact h4 (List.length_eq_zero.mp h)
  have hl := usersLoop_visits env
    (env.LoadOverlays w (filepathJoin [env.exeDir, "overlays by category"]) artStyles).val.1
    (steamGridFilterOf config)
    (fun u user s hs => userBody_visits env _ _ hmk (hgames _ _) u user s hs)
    (env.GetUsers (env.GetSteamInstallation (env.LoadOverlays w
      (filepathJoin [env.exeDir, "overlays by category"]) artStyles).world
      config.SteamPath).world (env.GetSteamInstallation (env.LoadOverlays w
      (filepathJoin [env.exeDir, "overlays by category"]) artStyles).world
      config.SteamPath).val.1).val.1 0
    { initState config w with
      world := (env.GetUsers (env.GetSteamInstallation (env.LoadOverlays w
        (filepathJoin [env.exeDir, "overlays by category"]) artStyles).world
        config.SteamPath).world (env.GetSteamInstallation (env.LoadOverlays w
        (filepathJoin [env.exeDir, "overlays by category"]) artStyles).world
        config.SteamPath).val.1).world } rfl
  simp only [startApplication, initState, h1, h2, h3, h5, if_false]
  simp only [initState] at hl
  refine ⟨hl.1, ?_⟩
  rw [usersVisited_append, hl.2, List.range_eq_range']
  rfl

/-! ## The claims about a whole run -/

/-- C4: when the call of `DownloadImage` of an iteration returns an error whose text is
exactly `SteamGridDB authorization token is missing or invalid`, the iteration leaves the
configuration with the SteamGridDB API key empty and every other field as it was; over the
whole run, every call of `DownloadImage` made after such a call (later styles, games and
users) is passed the empty API key, and the run ends with the initial configuration, its key
cleared exactly when such an error occurred.  The API key is the argument `DownloadImage`
receives: an environment that records, at each call, the key it is handed and the error it
returns ends the run with a record in which every entry after one with the authorization
error has the empty key, and that record is the one the trace describes. -/
theorem C4_auth_failure_clears_key {W O : Type} (env : Env W O) (config : Config) (w : W) :
    (∀ (overlays : O) (filter gridDir : String) (ref : GameRef) (a : ArtStyle) (s : State W)
        (game : Game),
      (callLoadExisting env gridDir a s game).game.ImageSource = "" →
      (iterationDownload env filter gridDir ref a s game).val.2 = some authErrorText →
      (styleBody env overlays filter gridDir ref a s game).state.config =
        { s.config with SteamGridDBAPIKey := "" }) ∧
    (startApplication env config w).trace.Pairwise
      (fun e₁ e₂ => ∀ g a k o g' a' k' o' err',
        e₁ = Event.DownloadImage g a k o (some authErrorText) →
        e₂ = Event.DownloadImage g' a' k' o' err' → k' = "") ∧
    ((∃ g a k o, Event.DownloadImage g a k o (some authErrorText) ∈
        (startApplication env config w).trace) →
      (startApplication env config w).state.config = { config with SteamGridDBAPIKey := "" }) ∧
    ((¬ ∃ g a k o, Event.DownloadImage g a k o (some authErrorText) ∈
        (startApplication env config w).trace) →
      (startApplication env config w).state.config = config) ∧
    (startApplication (recording env) config (w, [])).state.world.2.Pairwise
      (fun c₁ c₂ => c₁.2 = some authErrorText → c₂.1 = "") ∧
    (startApplication (recording env) config (w, [])).state.world.2 =
      downloadLog (startApplication (recording env) config (w, [])).trace := by
  have h := startApplication_keyOK env config w
  have hlog := startApplication_logged env config w []
  rw [List.nil_append] at hlog
  refine ⟨?_, ?_, ?_, ?_, ?_, hlog⟩
  · intro overlays filter gridDir ref a s game hscan herr
    exact styleBody_config_of_authFailure env overlays filter gridDir ref a s game hscan herr
  · refine h.pairwise.imp ?_
    intro e₁ e₂ hk g a k o g' a' k' o' err' h1 h2
    refine hk ?_ k' ?_
    · rw [h1]; simp [Event.isAuthFailure]
    · rw [h2]; rfl
  · rintro ⟨g, a, k, o, hmem⟩
    exact h.cleared ⟨_, hmem, by simp [Event.isAuthFailure]⟩
  · intro hno
    refine h.kept ?_
    rintro ⟨e, he, hauth⟩
    cases e with
    | DownloadImage g a k o err =>
      simp only [Event.isAuthFailure, decide_eq_true_eq] at hauth
      rw [hauth] at he
      exact hno ⟨g, a, k, o, he⟩
    | _ => simp [Event.isAuthFailure] at hauth
  · rw [hlog]
    exact pairwise_downloadLog _ (startApplication_keyOK (recording env) config (w, [])).pairwise

set_option maxRecDepth 100000 in
/-- Witness of C4: the run on `authFailEnv`, whose first call of `DownloadImage` returns the
authorization error; recorded, that call received the configured key and the seven calls
after it the empty key. -/
theorem C4_auth_failure_clears_key_witness :
    Event.DownloadImage ⟨0, 0⟩ ArtStyle.Banner "key" "" (some authErrorText) ∈
      (startApplication authFailEnv demoConfig ()).trace ∧
    (startApplication authFailEnv demoConfig ()).state.config =
      { demoConfig with SteamGridDBAPIKey := "" } ∧
    (startApplication (recording authFailEnv) demoConfig ((), [])).state.world.2 =
      [("key", some authErrorText), ("", none), ("", none), ("", none), ("", none),
       ("", none), ("", none), ("", none)] ∧
    (startApplication (recording authFailEnv) demoConfig ((), [])).state.world.2.Pairwise
      (fun c₁ c₂ => c₁.2 = some authErrorText → c₂.1 = "") :=
  ⟨by decide,
   (C4_auth_failure_clears_key authFailEnv demoConfig ()).2.2.1
     ⟨⟨0, 0⟩, ArtStyle.Banner, "key", "", by decide⟩,
   by decide,
   (C4_auth_failure_clears_key authFailEnv demoConfig ()).2.2.2.2.1⟩

/-- C6 (amended): a failure of the primary image write or of the legacy copy never aborts the
run: as long as `BackupGame` returns no error, every game the run enumerates is processed for
each of the four styles, whatever `WriteFile` returns, and a failed primary write is reported
by the line of line 219.  An iteration ends the run exactly when it reaches line 176 and
`BackupGame` returns an error (`errorAndExit`, line 204).  When moreover `os.MkdirAll`
returns no error and the set-up reaches the loop over the users, the run ends without an
exit and has called `GetGames` once for every user `GetUsers` returned, in order. -/
theorem C6_write_failures_do_not_abort {W O : Type} (env : Env W O) (config : Config) (w : W) :
    ((∀ w d g e, (env.BackupGame w d g e).val = none) →
      ∀ u n, Event.GetGames u n ∈ (startApplication env config w).trace →
        ∀ i, i < n → ∀ a,
          Event.LoadExisting ⟨u, i⟩ a ∈ (startApplication env config w).trace) ∧
    (∀ (gridDir : String) (a : ArtStyle) (w : W) (game : Game) (m : String),
      (callWriteImage env gridDir a w game).val = some m →
      Event.stdout (failedWriteLine a game m) ∈ (saveResult env gridDir a w game).val) ∧
    (∀ (overlays : O) (filter gridDir : String) (ref : GameRef) (a : ArtStyle) (s : State W)
        (game : Game), s.exited = false →
      ((styleBody env overlays filter gridDir ref a s game).state.exited = true ↔
        (findImage env filter gridDir ref a s game).2 = false ∧
        (iterationBackup env overlays filter gridDir ref a s game).val ≠ none)) ∧
    ((∀ w d g e, (env.BackupGame w d g e).val = none) →
      (∀ w p, (env.MkdirAll w p).val = none) →
      SetUpDone env config w →
      (startApplication env config w).state.exited = false ∧
      usersVisited (startApplication env config w).trace =
        List.range (callGetUsers env config w).val.1.length) := by
  refine ⟨fun hbk => startApplication_covers env hbk config w, ?_, ?_, ?_⟩
  · intro gridDir a w game m hm
    simp only [saveResult, hm]
    simp
  · intro overlays filter gridDir ref a s game hrun
    rw [styleBody_exited, hrun]
    by_cases h : (findImage env filter gridDir ref a s game).2 = false ∧
        (iterationBackup env overlays filter gridDir ref a s game).val ≠ none
    · simp [h]
    · simp only [h, if_false, iff_false]
      simp
  · intro hbk hmk hsu
    exact startApplication_visits env config w hmk
      (fun overlays filter gridDir u total l i s hs =>
        (gamesLoop_covers env hbk overlays filter gridDir u total l i s hs).2) hsu

set_option maxRecDepth 100000 in
/-- Witness of C6 (amended): two users, every write failing; the run does not exit, visits
both users, and processes the last game of the second user for the last style. -/
theorem C6_write_failures_do_not_abort_witness :
    (∀ w d g e, (twoUserWriteFailEnv.BackupGame w d g e).val = none) ∧
    (∀ w p, (twoUserWriteFailEnv.MkdirAll w p).val = none) ∧
    SetUpDone twoUserWriteFailEnv demoConfig () ∧
    (callGetUsers twoUserWriteFailEnv demoConfig ()).val.1.length = 2 ∧
    Event.WriteFile "/steam/userdata/2/config/grid/12345.png" (some [1, 2, 3])
      (some "disk full") ∈ (startApplication twoUserWriteFailEnv demoConfig ()).trace ∧
    Event.LoadExisting ⟨1, 1⟩ ArtStyle.Logo ∈
      (startApplication twoUserWriteFailEnv demoConfig ()).trace ∧
    ((startApplication twoUserWriteFailEnv demoConfig ()).state.exited = false ∧
      usersVisited (startApplication twoUserWriteFailEnv demoConfig ()).trace =
        List.range (callGetUsers twoUserWriteFailEnv demoConfig ()).val.1.length) :=
  ⟨fun _ _ _ _ => rfl, fun _ _ => rfl, ⟨by decide, by decide, by decide, by decide⟩,
   by decide, by decide,
   (C6_write_failures_do_not_abort twoUserWriteFailEnv demoConfig ()).1 (fun _ _ _ _ => rfl) 1 2
     (by decide) 1 (by decide) ArtStyle.Logo,
   (C6_write_failures_do_not_abort twoUserWriteFailEnv demoConfig ()).2.2.2
     (fun _ _ _ _ => rfl) (fun _ _ => rfl) ⟨by decide, by decide, by decide, by decide⟩⟩

/-- C10: when no source finds an image (`LoadExisting` and `DownloadImage` leave an empty
image source empty), then whatever the order in which the styles are visited and whatever the
image fields of the games held before, the not-found bucket of every style is the sequence of
the games the run enumerated, in order; every other bucket is empty, both counters are zero,
and no overlay, backup or image write is made.  Hence two such runs that enumerate the same
games end with identical not-found buckets.  The games enumerated are those of all users:
when `os.MkdirAll` returns no error and the set-up reaches the loop over the users, the run
calls `GetGames` once for every user `GetUsers` returned, in order. -/
theorem C10_nothing_found_buckets {W O : Type} (env : Env W O) (config : Config) (w : W)
    (hnf : NothingFound env) :
    (∀ a, (startApplication env config w).state.notFounds a =
      enumerated (startApplication env config w).trace) ∧
    (startApplication env config w).state.steamGridDB = Buckets.empty ∧
    (startApplication env config w).state.IGDB = Buckets.empty ∧
    (startApplication env config w).state.searchedGames = Buckets.empty ∧
    (startApplication env config w).state.failedGames = Buckets.empty ∧
    (startApplication env config w).state.nDownloaded = 0 ∧
    (startApplication env config w).state.nOverlaysApplied = 0 ∧
    (∀ e ∈ (startApplication env config w).trace,
      e.isApplyOverlay = false ∧ e.isBackupGame = false ∧ e.isWriteFile = false) ∧
    (∀ (env' : Env W O) (config' : Config) (w' : W), NothingFound env' →
      enumerated (startApplication env' config' w').trace =
        enumerated (startApplication env config w).trace →
      (startApplication env' config' w').state.notFounds =
        (startApplication env config w).state.notFounds) ∧
    ((∀ w p, (env.MkdirAll w p).val = none) → SetUpDone env config w →
      usersVisited (startApplication env config w).trace =
        List.range (callGetUsers env config w).val.1.length) := by
  have h := startApplication_notFound env hnf config w
  have hn : ∀ a, (startApplication env config w).state.notFounds a =
      enumerated (startApplication env config w).trace := by
    intro a
    rw [h.notFounds a]
    rfl
  refine ⟨hn, h.idle.steamGridDB, h.idle.IGDB, h.idle.searchedGames, h.idle.failedGames,
    h.idle.nDownloaded, h.idle.nOverlaysApplied, ?_, ?_, ?_⟩
  · intro e he
    have := List.any_eq_false.mp h.quiet e he
    simp only [Event.isSaveStep, Bool.not_eq_true, Bool.or_eq_false_iff] at this
    exact ⟨this.1.1, this.1.2, this.2⟩
  · intro env' config' w' hnf' henum
    have h' := startApplication_notFound env' hnf' config' w'
    funext a
    rw [hn a, h'.notFounds a, henum]
    rfl
  · intro hmk hsu
    exact (startApplication_visits env config w hmk
      (fun overlays filter gridDir u total l i s hs =>
        ⟨(gamesLoop_notFound env hnf overlays filter gridDir u total l i s hs).2.2.1,
         (gamesLoop_notFound env hnf overlays filter gridDir u total l i s hs).2.2.2.2⟩)
      hsu).2

set_option maxRecDepth 100000 in
/-- Witness of C10: the run on a library of two users with two games each, in which nothing
is found, and the same run with the styles visited in the opposite order. -/
theorem C10_nothing_found_buckets_witness :
    NothingFound twoUserEnv ∧
    enumerated (startApplication twoUserEnv demoConfig ()).trace =
      [⟨0, 0⟩, ⟨0, 1⟩, ⟨1, 0⟩, ⟨1, 1⟩] ∧
    (∀ a, (startApplication twoUserEnv demoConfig ()).state.notFounds a =
      enumerated (startApplication twoUserEnv demoConfig ()).trace) ∧
    (startApplication twoUserReversedEnv demoConfig ()).state.notFounds =
      (startApplication twoUserEnv demoConfig ()).state.notFounds ∧
    (callGetUsers twoUserEnv demoConfig ()).val.1.length = 2 ∧
    usersVisited (startApplication twoUserEnv demoConfig ()).trace =
      List.range (callGetUsers twoUserEnv demoConfig ()).val.1.length :=
  ⟨⟨fun _ _ _ _ _ h => h, fun _ _ _ _ _ _ _ _ _ _ h => h⟩,
   by decide,
   (C10_nothing_found_buckets twoUserEnv demoConfig ()
      ⟨fun _ _ _ _ _ h => h, fun _ _ _ _ _ _ _ _ _ _ h => h⟩).1,
   (C10_nothing_found_buckets twoUserEnv demoConfig ()
      ⟨fun _ _ _ _ _ h => h, fun _ _ _ _ _ _ _ _ _ _ h => h⟩).2.2.2.2.2.2.2.2.1
      twoUserReversedEnv demoConfig ()
      ⟨fun _ _ _ _ _ h => h, fun _ _ _ _ _ _ _ _ _ _ h => h⟩ (by decide),
   by decide,
   (C10_nothing_found_buckets twoUserEnv demoConfig ()
      ⟨fun _ _ _ _ _ h => h, fun _ _ _ _ _ _ _ _ _ _ h => h⟩).2.2.2.2.2.2.2.2.2
      (fun _ _ => rfl) ⟨by decide, by decide, by decide, by decide⟩⟩

end SteamGrid
